import Mathlib

/-!
# Verification of the SoleSense simulation core

A shallow embedding, in exact rational arithmetic, of the SoleSense shoe-sole
pressure/comfort/wear simulation pipeline (`core/constants.py`,
`core/constraints.py`, `core/normalization.py`, `core/pressure_field.py`,
`core/temporal_evolution.py`, `core/comfort_engine.py`, `core/wear_model.py`,
`core/scenario_compare.py`, `core/orchestrator.py`), together with theorems
settling the stated design properties.

Modelling conventions:
* grids (`numpy` 2-d arrays) are functions `Fin r → Fin c → ℚ`;
* machine floats are idealised as exact rationals; transcendental library
  functions (`np.exp`, `np.sin`, fractional `np.power`) are abstracted as
  explicit function parameters (a `Transcendentals` bundle), so every theorem
  quantifies over arbitrary interpretations of them — in particular over the
  actual float implementations;
* `np.nan_to_num` is the identity map (exact rationals have no non-finite
  values);
* rational division is total with `x / 0 = 0`; every division site of the
  source whose divisor can vanish is guarded in the source itself, and the
  checked (`Except`-valued) variant of the pipeline at the end of this file
  models those failure points explicitly.
-/

namespace SoleSense

/-! ## Python / numpy primitives -/

/-- Python `max(0.0, min(x, 1.0))` (the source's `_clip01`). -/
def clip01 (x : ℚ) : ℚ := max 0 (min x 1)

/-- Model of `np.clip(x, lo, hi)`: values below `lo` become `lo`, above `hi` become `hi`. -/
def clipTo (lo hi x : ℚ) : ℚ := min (max x lo) hi

/-- Python 3 `round` with no digits: round half to even, returning an integer. -/
def pyRound (x : ℚ) : ℤ :=
  if x - ⌊x⌋ < 1/2 then ⌊x⌋
  else if 1/2 < x - ⌊x⌋ then ⌊x⌋ + 1
  else if Even ⌊x⌋ then ⌊x⌋ else ⌊x⌋ + 1

/-- Python 3 `round(x, ndigits)`: round half to even at `ndigits` decimals. -/
def pyRoundTo (ndigits : ℕ) (x : ℚ) : ℚ :=
  (pyRound (x * 10 ^ ndigits) : ℚ) / 10 ^ ndigits

/-- Python `int(x)`: truncation toward zero. -/
def pyInt (x : ℚ) : ℤ := if x < 0 then -⌊-x⌋ else ⌊x⌋

theorem clip01_nonneg (x : ℚ) : 0 ≤ clip01 x := le_max_left 0 _

theorem clip01_le_one (x : ℚ) : clip01 x ≤ 1 := by
  unfold clip01
  rcases le_total 0 (min x 1) with h | h
  · rw [max_eq_right h]
    exact min_le_right x 1
  · simp [max_eq_left h]

theorem clip01_eq_self {x : ℚ} (h0 : 0 ≤ x) (h1 : x ≤ 1) : clip01 x = x := by
  unfold clip01
  rw [min_eq_left h1, max_eq_right h0]

theorem clip01_pos {x : ℚ} (h : 0 < x) : 0 < clip01 x := by
  unfold clip01
  exact lt_max_of_lt_right (lt_min h one_pos)

theorem clipTo_le {lo hi : ℚ} (x : ℚ) : clipTo lo hi x ≤ hi := min_le_right _ _

theorem clipTo_ge {lo hi : ℚ} (x : ℚ) (h : lo ≤ hi) : lo ≤ clipTo lo hi x :=
  le_min (le_max_right x lo) h

theorem clipTo_le_self {lo hi x : ℚ} (h : lo ≤ x) : clipTo lo hi x ≤ x := by
  unfold clipTo
  rw [max_eq_left h]
  exact min_le_left x hi

theorem pyRound_nonneg {x : ℚ} (h : 0 ≤ x) : 0 ≤ pyRound x := by
  have hf : (0 : ℤ) ≤ ⌊x⌋ := by positivity
  unfold pyRound
  split
  · exact hf
  · split
    · omega
    · split
      · exact hf
      · omega

theorem pyRound_le_int {x : ℚ} {n : ℤ} (h : x ≤ n) : pyRound x ≤ n := by
  have hfl : ⌊x⌋ ≤ n := by
    have := Int.floor_le_floor (α := ℚ) h
    simpa using this
  unfold pyRound
  split
  · exact hfl
  · rename_i h1
    have hx : (⌊x⌋ : ℚ) + 1/2 ≤ x := by
      have := not_lt.mp h1
      linarith
    have : ⌊x⌋ < n := by
      by_contra hc
      have hfn : ⌊x⌋ = n := le_antisymm hfl (not_lt.mp hc)
      rw [hfn] at hx
      have : (n : ℚ) + 1/2 ≤ (n : ℚ) := le_trans hx h
      linarith
    split
    · omega
    · split
      · exact hfl
      · omega

/-! ## Grids -/

/-- A 2-d numpy array of rationals: rows are the heel→toe axis. -/
abbrev Grid (r c : ℕ) := Fin r → Fin c → ℚ

/-- Model of `np.sum(g)`. -/
def gridSum {r c : ℕ} (g : Grid r c) : ℚ := ∑ i, ∑ j, g i j

/-- Model of `np.mean(g)`: the sum divided by the number of cells. -/
def gridMean {r c : ℕ} (g : Grid r c) : ℚ := gridSum g / ((r * c : ℕ) : ℚ)

/-- All cells of `g` in row-major order. -/
def cellList {r c : ℕ} (g : Grid r c) : List ℚ :=
  (List.finRange r).foldr
    (fun i acc => (List.finRange c).foldr (fun j acc2 => g i j :: acc2) acc) []

/-- Model of `np.max(g)` (0 on an empty grid, which the source never produces). -/
def gridMax {r c : ℕ} (g : Grid r c) : ℚ :=
  match cellList g with
  | [] => 0
  | x :: xs => xs.foldl max x

/-- Model of `np.sum(boolean mask)`: the number of cells satisfying `p`, as a rational. -/
def gridCount {r c : ℕ} (g : Grid r c) (p : ℚ → Prop) [DecidablePred p] : ℚ :=
  ∑ i, ∑ j, if p (g i j) then (1 : ℚ) else 0

theorem gridSum_scale {r c : ℕ} (g : Grid r c) (s : ℚ) :
    gridSum (fun i j => g i j * s) = gridSum g * s := by
  unfold gridSum
  rw [Finset.sum_mul]
  exact Finset.sum_congr rfl fun i _ => by rw [Finset.sum_mul]

theorem gridSum_const {r c : ℕ} (v : ℚ) :
    gridSum (fun _ _ => v : Grid r c) = (r * c : ℕ) * v := by
  unfold gridSum
  simp [Finset.sum_const, mul_assoc, mul_comm]
  ring

theorem gridSum_nonneg {r c : ℕ} {g : Grid r c} (h : ∀ i j, 0 ≤ g i j) :
    0 ≤ gridSum g :=
  Finset.sum_nonneg fun i _ => Finset.sum_nonneg fun j _ => h i j

theorem gridSum_le_gridSum {r c : ℕ} {g h : Grid r c} (hle : ∀ i j, g i j ≤ h i j) :
    gridSum g ≤ gridSum h :=
  Finset.sum_le_sum fun i _ => Finset.sum_le_sum fun j _ => hle i j

/-! ## `core/constants.py` -/

def GRID_ROWS : ℕ := 20
def GRID_COLS : ℕ := 10
def MAX_CELL_PRESSURE : ℚ := 0.15
def MIN_CELL_PRESSURE : ℚ := 0.0
def TIME_STEP : ℕ := 1
def DEFAULT_SIM_STEPS : ℕ := 10000

/-- One row of `ACTIVITY_PROFILE`. -/
structure ActivityProfile where
  load_multiplier : ℚ
  variation : ℚ
  wear_rate : ℚ
deriving DecidableEq

/-- The `ACTIVITY_PROFILE` dict; `none` for keys not present. -/
def ACTIVITY_PROFILE (mode : String) : Option ActivityProfile :=
  match mode with
  | "standing" => some ⟨1.0, 0.05, 0.6⟩
  | "walking" => some ⟨1.1, 0.15, 1.0⟩
  | "running" => some ⟨1.35, 0.35, 1.8⟩
  | "stairs" => some ⟨1.25, 0.25, 1.5⟩
  | "jumping" => some ⟨1.6, 0.5, 2.2⟩
  | _ => none

/-- The `ARCH_BIAS` dict; `none` for keys not present. -/
def ARCH_BIAS (arch : String) : Option ℚ :=
  match arch with
  | "flat" => some 0.15
  | "normal" => some 0.0
  | "high" => some (-0.15)
  | _ => none

/-- The `COMFORT_WEIGHTS` dict (every key used by the source is present). -/
def COMFORT_WEIGHTS (key : String) : ℚ :=
  match key with
  | "pressure_peak" => 0.20
  | "high_pressure_area" => 0.20
  | "zone_bias" => 0.15
  | "asymmetry" => 0.15
  | "temporal_variation" => 0.15
  | "pressure_persistence" => 0.15
  | _ => 0

def WEAR_RATE : ℚ := 0.00001
def MAX_WEAR : ℚ := 1.0
def WEAR_NONLINEARITY : ℚ := 1.3
def WEAR_VISIBILITY_GAIN : ℚ := 50.0

/-! ## `core/constraints.py`

`EPSILON = 1e-8`. -/

def EPSILON : ℚ := 1e-8

def max_representable_force (r c : ℕ) : ℚ := MAX_CELL_PRESSURE * r * c

/-- Model of `_safe_uniform(shape, target_force)`: uniform fallback that always
respects bounds. -/
def safe_uniform (r c : ℕ) (target_force : ℚ) : Grid r c :=
  let max_force := max_representable_force r c
  let effective_force := min target_force max_force
  let value := effective_force / ((r * c : ℕ) : ℚ)
  fun _ _ => min value MAX_CELL_PRESSURE

/-- Model of `enforce_finite(grid)` = `np.nan_to_num(...)`: the identity on exact
rationals, where no NaN or infinity exists. -/
def enforce_finite {r c : ℕ} (g : Grid r c) : Grid r c := g

/-- Model of `enforce_bounds(grid)` = `np.clip(grid, MIN_CELL_PRESSURE, MAX_CELL_PRESSURE)`. -/
def enforce_bounds {r c : ℕ} (g : Grid r c) : Grid r c :=
  fun i j => clipTo MIN_CELL_PRESSURE MAX_CELL_PRESSURE (g i j)

/-- Model of `enforce_force_with_capacity(grid, target_force)`: conserves force only
if representable, otherwise saturates safely. -/
def enforce_force_with_capacity {r c : ℕ} (g : Grid r c) (target_force : ℚ) :
    Grid r c :=
  let max_force := max_representable_force r c
  if max_force < target_force then safe_uniform r c target_force
  else
    let current_force := gridSum g
    if current_force < EPSILON then safe_uniform r c target_force
    else
      let scaled : Grid r c := fun i j => g i j * (target_force / current_force)
      let clipped := enforce_bounds scaled
      let clipped_force := gridSum clipped
      if clipped_force < EPSILON then safe_uniform r c target_force
      else fun i j => clipped i j * (target_force / clipped_force)

/-- Model of `apply_constraints(grid, target_total_force)`: finite → bounds → force →
bounds, in the source's priority-aware order. -/
def apply_constraints {r c : ℕ} (g : Grid r c) (target_total_force : ℚ) :
    Grid r c :=
  enforce_bounds
    (enforce_force_with_capacity (enforce_bounds (enforce_finite g))
      target_total_force)

theorem enforce_bounds_nonneg {r c : ℕ} (g : Grid r c) (i : Fin r) (j : Fin c) :
    0 ≤ enforce_bounds g i j := by
  have h : MIN_CELL_PRESSURE ≤ MAX_CELL_PRESSURE := by
    unfold MIN_CELL_PRESSURE MAX_CELL_PRESSURE; norm_num
  have h2 := clipTo_ge (g i j) h
  have h0 : (0 : ℚ) = MIN_CELL_PRESSURE := by unfold MIN_CELL_PRESSURE; norm_num
  rw [h0]
  exact h2

theorem enforce_bounds_le_max {r c : ℕ} (g : Grid r c) (i : Fin r) (j : Fin c) :
    enforce_bounds g i j ≤ MAX_CELL_PRESSURE :=
  clipTo_le (g i j)

/-- Every cell of an `apply_constraints` output lies in
`[MIN_CELL_PRESSURE, MAX_CELL_PRESSURE]` — the final re-clip guarantees it
regardless of the input grid and the force target. -/
theorem apply_constraints_cell_bounds {r c : ℕ} (g : Grid r c) (t : ℚ)
    (i : Fin r) (j : Fin c) :
    0 ≤ apply_constraints g t i j ∧ apply_constraints g t i j ≤ MAX_CELL_PRESSURE :=
  ⟨enforce_bounds_nonneg _ i j, enforce_bounds_le_max _ i j⟩

theorem gridSum_safe_uniform {r c : ℕ} (t : ℚ) (hrc : 0 < r * c)
    (h : t ≤ max_representable_force r c) :
    gridSum (safe_uniform r c t) = t := by
  have hq : (0 : ℚ) < ((r * c : ℕ) : ℚ) := by exact_mod_cast hrc
  have hmf : max_representable_force r c = MAX_CELL_PRESSURE * ((r * c : ℕ) : ℚ) := by
    unfold max_representable_force
    push_cast
    ring
  have hdiv : t / ((r * c : ℕ) : ℚ) ≤ MAX_CELL_PRESSURE := by
    rw [div_le_iff hq]
    rw [hmf] at h
    linarith [h]
  simp only [safe_uniform, min_eq_left h, min_eq_left hdiv]
  rw [gridSum_const, mul_comm, div_mul_cancel₀ t (ne_of_gt hq)]

theorem safe_uniform_nonneg {r c : ℕ} (t : ℚ) (ht : 0 ≤ t) (i : Fin r) (j : Fin c) :
    0 ≤ safe_uniform r c t i j := by
  have hmax : (0 : ℚ) ≤ MAX_CELL_PRESSURE := by unfold MAX_CELL_PRESSURE; norm_num
  have hforce : (0 : ℚ) ≤ max_representable_force r c := by
    unfold max_representable_force
    positivity
  simp only [safe_uniform]
  exact le_min (div_nonneg (le_min ht hforce) (by positivity)) hmax

theorem eps_pos : (0 : ℚ) < EPSILON := by unfold EPSILON; norm_num

/-- When the target is representable, `enforce_force_with_capacity` returns a
grid whose total is exactly the target (exact rational arithmetic): every
branch either rescales to the target or falls back to a uniform grid that
carries the full target. -/
theorem enforce_force_with_capacity_sum {r c : ℕ} (g : Grid r c) (t : ℚ)
    (hrc : 0 < r * c) (h : t ≤ max_representable_force r c) :
    gridSum (enforce_force_with_capacity g t) = t := by
  simp only [enforce_force_with_capacity]
  split_ifs with h1 h2 h3
  · exact absurd h1 (not_lt.mpr h)
  · exact gridSum_safe_uniform t hrc h
  · exact gridSum_safe_uniform t hrc h
  · have hcf : gridSum (enforce_bounds fun i j => g i j * (t / gridSum g)) ≠ 0 :=
      ne_of_gt (lt_of_lt_of_le eps_pos (not_lt.mp h3))
    rw [gridSum_scale, mul_comm, div_mul_cancel₀ t hcf]

theorem enforce_force_with_capacity_nonneg {r c : ℕ} (g : Grid r c) (t : ℚ)
    (ht : 0 ≤ t) (i : Fin r) (j : Fin c) :
    0 ≤ enforce_force_with_capacity g t i j := by
  simp only [enforce_force_with_capacity]
  split_ifs with h1 h2 h3
  · exact safe_uniform_nonneg t ht i j
  · exact safe_uniform_nonneg t ht i j
  · exact safe_uniform_nonneg t ht i j
  · have hcf : (0 : ℚ) < gridSum (enforce_bounds fun i j => g i j * (t / gridSum g)) :=
      lt_of_lt_of_le eps_pos (not_lt.mp h3)
    exact mul_nonneg (enforce_bounds_nonneg _ i j) (div_nonneg ht (le_of_lt hcf))

/-- When the target exceeds the representable maximum, `apply_constraints`
returns the uniform grid at `MAX_CELL_PRESSURE`. -/
theorem apply_constraints_saturates {r c : ℕ} (g : Grid r c) (t : ℚ)
    (hrc : 0 < r * c) (h : max_representable_force r c < t)
    (i : Fin r) (j : Fin c) :
    apply_constraints g t i j = MAX_CELL_PRESSURE := by
  have hq : ((r * c : ℕ) : ℚ) ≠ 0 := by
    have : (0 : ℚ) < ((r * c : ℕ) : ℚ) := by exact_mod_cast hrc
    exact ne_of_gt this
  have hmax : (0 : ℚ) ≤ MAX_CELL_PRESSURE := by unfold MAX_CELL_PRESSURE; norm_num
  have hdivmax : max_representable_force r c / ((r * c : ℕ) : ℚ) = MAX_CELL_PRESSURE := by
    unfold max_representable_force
    push_cast
    rw [mul_assoc, mul_div_assoc, div_self (by exact_mod_cast hq), mul_one]
  unfold apply_constraints
  have huni : enforce_force_with_capacity (enforce_bounds (enforce_finite g)) t
      = safe_uniform r c t := by
    simp only [enforce_force_with_capacity]
    rw [if_pos h]
  rw [huni]
  simp only [enforce_bounds, safe_uniform, min_eq_right (le_of_lt h), hdivmax,
    min_self, clipTo]
  rw [max_eq_left (by unfold MIN_CELL_PRESSURE; linarith [hmax]), min_self]

/-- The final re-clip of `apply_constraints` never increases the total when
the force target is nonnegative, so the output total is at most the target. -/
theorem apply_constraints_sum_le {r c : ℕ} (g : Grid r c) (t : ℚ)
    (hrc : 0 < r * c) (ht : 0 ≤ t) :
    gridSum (apply_constraints g t) ≤ t := by
  by_cases hcap : t ≤ max_representable_force r c
  · have hsum := enforce_force_with_capacity_sum (enforce_bounds (enforce_finite g)) t hrc hcap
    have hle : gridSum (apply_constraints g t)
        ≤ gridSum (enforce_force_with_capacity (enforce_bounds (enforce_finite g)) t) := by
      refine gridSum_le_gridSum fun i j => ?_
      have h0 : (0 : ℚ) ≤ enforce_force_with_capacity (enforce_bounds (enforce_finite g)) t i j :=
        enforce_force_with_capacity_nonneg _ t ht i j
      exact clipTo_le_self (by unfold MIN_CELL_PRESSURE; linarith [h0])
    exact le_trans hle (le_of_eq hsum)
  · push_neg at hcap
    have huni := fun i j => apply_constraints_saturates g t hrc hcap i j
    have : gridSum (apply_constraints g t) = max_representable_force r c := by
      have : gridSum (apply_constraints g t)
          = gridSum (fun _ _ => MAX_CELL_PRESSURE : Grid r c) := by
        unfold gridSum
        exact Finset.sum_congr rfl fun i _ => Finset.sum_congr rfl fun j _ => huni i j
      rw [this, gridSum_const]
      unfold max_representable_force
      push_cast
      ring
    rw [this]
    exact le_of_lt hcap

/-- The concrete 1×2 grid `[[1, 0]]` used to refute exact force conservation
through `apply_constraints`. -/
def concentratedGrid : Grid 1 2 := ![![1, 0]]

/-- C4 counterexample: on the 1×2 grid `[[1, 0]]` with target force `0.3`
(representable: `MAX_CELL_PRESSURE·1·2 = 0.3`), `apply_constraints` returns a
grid of total `0.15`, missing the target by `0.15 > 1e-6` — the final re-clip
truncates the corrective rescale, so the claimed tolerance-`1e-6` conservation
fails. -/
theorem apply_constraints_conservation_counterexample :
    (0.3 : ℚ) ≤ max_representable_force 1 2 ∧
    (1e-6 : ℚ) < |gridSum (apply_constraints concentratedGrid (0.3 : ℚ)) - 0.3| := by
  refine ⟨by norm_num [max_representable_force, MAX_CELL_PRESSURE], ?_⟩
  have h1 : enforce_bounds (enforce_finite concentratedGrid) = ![![(0.15 : ℚ), 0]] := by
    funext i j
    fin_cases i <;> fin_cases j <;>
      norm_num [enforce_bounds, enforce_finite, clipTo, MIN_CELL_PRESSURE,
        MAX_CELL_PRESSURE, concentratedGrid]
  have h2 : gridSum (![![(0.15 : ℚ), 0]] : Grid 1 2) = 0.15 := by
    norm_num [gridSum, Fin.sum_univ_succ]
  have h3 : enforce_bounds (fun i j => (![![(0.15 : ℚ), 0]] : Grid 1 2) i j * (0.3 / 0.15))
      = ![![(0.15 : ℚ), 0]] := by
    funext i j
    fin_cases i <;> fin_cases j <;>
      norm_num [enforce_bounds, clipTo, MIN_CELL_PRESSURE, MAX_CELL_PRESSURE]
  have h4 : enforce_force_with_capacity (enforce_bounds (enforce_finite concentratedGrid))
      (0.3 : ℚ) = fun i j => (![![(0.15 : ℚ), 0]] : Grid 1 2) i j * (0.3 / 0.15) := by
    rw [h1]
    simp only [enforce_force_with_capacity]
    rw [if_neg (by norm_num [max_representable_force, MAX_CELL_PRESSURE]), h2,
      if_neg (by norm_num [EPSILON]), h3, h2, if_neg (by norm_num [EPSILON])]
  have h5 : gridSum (apply_constraints concentratedGrid (0.3 : ℚ)) = 0.15 := by
    unfold apply_constraints
    rw [h4]
    norm_num [gridSum, Fin.sum_univ_succ, enforce_bounds, clipTo,
      MIN_CELL_PRESSURE, MAX_CELL_PRESSURE]
  rw [h5, abs_sub_comm, abs_of_nonneg (by norm_num : (0 : ℚ) ≤ 0.3 - 0.15)]
  norm_num

/-- C4 (amended): for every grid and target on a non-degenerate shape,
(i) the force-enforcement step itself conserves a representable target
exactly; (ii) the final re-clip of `apply_constraints` can only lose force,
so the output total is at most a nonnegative target; (iii) a target above the
representable maximum yields the uniform grid at `MAX_CELL_PRESSURE`. -/
theorem apply_constraints_force_conservation {r c : ℕ} (g : Grid r c) (t : ℚ)
    (hr : 0 < r) (hc : 0 < c) :
    (t ≤ max_representable_force r c →
      gridSum (enforce_force_with_capacity (enforce_bounds (enforce_finite g)) t) = t)
    ∧ (0 ≤ t → gridSum (apply_constraints g t) ≤ t)
    ∧ (max_representable_force r c < t →
        ∀ i j, apply_constraints g t i j = MAX_CELL_PRESSURE) := by
  have hrc : 0 < r * c := Nat.mul_pos hr hc
  exact ⟨fun h => enforce_force_with_capacity_sum _ t hrc h,
    fun ht => apply_constraints_sum_le g t hrc ht,
    fun h i j => apply_constraints_saturates g t hrc h i j⟩

/-- Witness for the amended C4 theorem at the 1×1 grid `[[0.05]]` with
target `0.1`. -/
theorem apply_constraints_force_conservation_witness :
    0 < 1 ∧ (0.1 : ℚ) ≤ max_representable_force 1 1 ∧
    gridSum (enforce_force_with_capacity
      (enforce_bounds (enforce_finite (fun _ _ => 0.05 : Grid 1 1))) (0.1 : ℚ)) = 0.1 :=
  ⟨by decide, by norm_num [max_representable_force, MAX_CELL_PRESSURE],
    (apply_constraints_force_conservation (fun _ _ => 0.05 : Grid 1 1) (0.1 : ℚ)
      (by decide) (by decide)).1
      (by norm_num [max_representable_force, MAX_CELL_PRESSURE])⟩

/-! ## `core/normalization.py` -/

/-- The validated input record handed to the core (`raw_inputs`).  String
fields are the lowercased values produced by the validation boundary. -/
structure RawInputs where
  body_weight : ℚ
  foot_size : ℚ
  arch_type : String
  activity_mode : String
  sole_stiffness : ℚ
  material_durability : ℚ
deriving DecidableEq

/-- Model of `_normalize_range(value, min_val, max_val)`: clamp then normalize to `[0,1]`. -/
def normalize_range (value min_val max_val : ℚ) : ℚ :=
  (max (min value max_val) min_val - min_val) / (max_val - min_val)

/-- The dict returned by `normalize_inputs`. -/
structure SimParams where
  load_factor : ℚ
  contact_capacity : ℚ
  arch_bias : ℚ
  activity_load : ℚ
  activity_variation : ℚ
  activity_wear_rate : ℚ
  stiffness_factor : ℚ
  durability_factor : ℚ
deriving DecidableEq

/-- Model of `ACTIVITY_PROFILE["walking"]`, the defensive fallback used by
`normalize_inputs` for unknown activity keys. -/
def walkingProfile : ActivityProfile := ⟨1.1, 0.15, 1.0⟩

theorem walkingProfile_lookup : ACTIVITY_PROFILE "walking" = some walkingProfile := rfl

/-- Model of `normalize_inputs(inputs)`. -/
def normalize_inputs (inputs : RawInputs) : SimParams :=
  let activity := (ACTIVITY_PROFILE inputs.activity_mode).getD walkingProfile
  { load_factor := normalize_range inputs.body_weight 40.0 120.0
    contact_capacity := normalize_range inputs.foot_size 36.0 48.0
    arch_bias := (ARCH_BIAS inputs.arch_type).getD 0.0
    activity_load := activity.load_multiplier
    activity_variation := activity.variation
    activity_wear_rate := activity.wear_rate
    stiffness_factor := max (min inputs.sole_stiffness 1.0) 0.0
    durability_factor := max (min inputs.material_durability 1.0) 0.0 }

/-- Model of `_normalize_range` (clamp first, then divide) computes exactly the
clamped linear map `clip01((v - lo)/(hi - lo))`. -/
theorem normalize_range_eq_clip01 {v lo hi : ℚ} (h : lo < hi) :
    normalize_range v lo hi = clip01 ((v - lo) / (hi - lo)) := by
  have hd : 0 < hi - lo := by linarith
  unfold normalize_range clip01
  rcases le_total v lo with h1 | h1
  · rw [min_eq_left (le_trans h1 (le_of_lt h)), max_eq_right h1]
    have hq : (v - lo) / (hi - lo) ≤ 0 :=
      div_nonpos_of_nonpos_of_nonneg (by linarith) (le_of_lt hd)
    rw [min_eq_left (le_trans hq (by norm_num)), max_eq_left hq, sub_self, zero_div]
  · rcases le_total v hi with h2 | h2
    · rw [min_eq_left h2, max_eq_left h1]
      have h01 : 0 ≤ (v - lo) / (hi - lo) := div_nonneg (by linarith) (le_of_lt hd)
      have h11 : (v - lo) / (hi - lo) ≤ 1 := by
        rw [div_le_one hd]
        linarith
      rw [min_eq_left h11, max_eq_right h01]
    · rw [min_eq_right h2, max_eq_left (le_of_lt h)]
      have h11 : 1 ≤ (v - lo) / (hi - lo) := by
        rw [le_div_iff hd]
        linarith
      rw [min_eq_right h11, max_eq_right (by norm_num : (0 : ℚ) ≤ 1)]
      exact div_self (ne_of_gt hd)

/-- C9: `normalize_inputs` maps `body_weight` through the clamped linear map
of `[40,120]` onto `[0,1]` (so `body_weight = 1000` yields exactly `1`), and
`foot_size` through the clamped linear map of `[36,48]` onto `[0,1]`. -/
theorem normalize_inputs_clamped_linear (inputs : RawInputs) :
    (normalize_inputs inputs).load_factor = clip01 ((inputs.body_weight - 40) / 80)
    ∧ (normalize_inputs inputs).contact_capacity = clip01 ((inputs.foot_size - 36) / 12)
    ∧ (normalize_inputs { inputs with body_weight := 1000 }).load_factor = 1 := by
  have h1 : (normalize_inputs inputs).load_factor
      = normalize_range inputs.body_weight 40.0 120.0 := rfl
  have h2 : (normalize_inputs inputs).contact_capacity
      = normalize_range inputs.foot_size 36.0 48.0 := rfl
  refine ⟨?_, ?_, ?_⟩
  · rw [h1, normalize_range_eq_clip01 (by norm_num)]
    norm_num
  · rw [h2, normalize_range_eq_clip01 (by norm_num)]
    norm_num
  · have h3 : (normalize_inputs { inputs with body_weight := 1000 }).load_factor
        = normalize_range 1000 40.0 120.0 := rfl
    rw [h3, normalize_range_eq_clip01 (by norm_num)]
    norm_num [clip01]

/-! ## `core/comfort_engine.py` -/

/-- Python `int(q * n)` as used for row-slice boundaries such as
`int(0.7 * rows)` (exact-rational idealisation of the float product; it
agrees with the float computation at the source's 20×10 grid shape). -/
def sliceIndex (q : ℚ) (n : ℕ) : ℕ := (pyInt (q * n)).toNat

/-- Model of `np.mean(grid[lo:, :])`: mean over the rows from `lo` on. -/
def meanRowsFrom {r c : ℕ} (g : Grid r c) (lo : ℕ) : ℚ :=
  (∑ i ∈ Finset.univ.filter (fun i : Fin r => lo ≤ i.val), ∑ j, g i j)
    / (((r - lo) * c : ℕ) : ℚ)

/-- Model of `np.mean(grid[:hi, :])`: mean over the rows before `hi` (`hi ≤ r`). -/
def meanRowsTo {r c : ℕ} (g : Grid r c) (hi : ℕ) : ℚ :=
  (∑ i ∈ Finset.univ.filter (fun i : Fin r => i.val < hi), ∑ j, g i j)
    / ((hi * c : ℕ) : ℚ)

/-- Model of `np.mean(grid[:, :hi])`: mean over the columns before `hi` (`hi ≤ c`). -/
def meanColsTo {r c : ℕ} (g : Grid r c) (hi : ℕ) : ℚ :=
  (∑ i, ∑ j ∈ Finset.univ.filter (fun j : Fin c => j.val < hi), g i j)
    / ((r * hi : ℕ) : ℚ)

/-- Model of `np.mean(grid[:, lo:])`: mean over the columns from `lo` on. -/
def meanColsFrom {r c : ℕ} (g : Grid r c) (lo : ℕ) : ℚ :=
  (∑ i, ∑ j ∈ Finset.univ.filter (fun j : Fin c => lo ≤ j.val), g i j)
    / ((r * (c - lo) : ℕ) : ℚ)

/-- Model of `mean_p = max(np.mean(pressure_grid), 1e-8)`. -/
def mean_p {r c : ℕ} (g : Grid r c) : ℚ := max (gridMean g) 1e-8

/-- Penalty 1: `_clip01(np.max(pressure_grid) / MAX_CELL_PRESSURE)`. -/
def peak_penalty {r c : ℕ} (g : Grid r c) : ℚ :=
  clip01 (gridMax g / MAX_CELL_PRESSURE)

/-- Penalty 2: fraction of cells above `0.7 * MAX_CELL_PRESSURE`, clipped. -/
def area_penalty {r c : ℕ} (g : Grid r c) : ℚ :=
  clip01 (gridCount g (fun x => 0.7 * MAX_CELL_PRESSURE < x) / ((r * c : ℕ) : ℚ))

/-- Penalty 3: heel rows (`int(0.7·rows):`) vs forefoot rows
(`:int(0.3·rows)`) mean imbalance, relative to `mean_p`. -/
def zone_penalty {r c : ℕ} (g : Grid r c) : ℚ :=
  clip01 (|meanRowsFrom g (sliceIndex 0.7 r) - meanRowsTo g (sliceIndex 0.3 r)| / mean_p g)

/-- Penalty 4: left half vs right half column mean imbalance. -/
def asymmetry_penalty {r c : ℕ} (g : Grid r c) : ℚ :=
  clip01 (|meanColsTo g (c / 2) - meanColsFrom g (c / 2)| / mean_p g)

/-- Penalty 5: `0.0` on the first step (`previous_grid is None`), else
`_clip01(np.mean(|grid - previous|) / mean_p)`. -/
def temporal_penalty {r c : ℕ} (g : Grid r c) (prev : Option (Grid r c)) : ℚ :=
  match prev with
  | none => 0.0
  | some p => clip01 (gridMean (fun i j => |g i j - p i j|) / mean_p g)

/-- Penalty 6: applied only when the temporal penalty is below `0.2`. -/
def persistence_penalty {r c : ℕ} (g : Grid r c) (prev : Option (Grid r c)) : ℚ :=
  if temporal_penalty g prev < 0.2 then clip01 (mean_p g / MAX_CELL_PRESSURE) else 0.0

/-- The weighted penalty combination of `compute_comfort`. -/
def total_penalty {r c : ℕ} (g : Grid r c) (prev : Option (Grid r c)) : ℚ :=
  COMFORT_WEIGHTS "pressure_peak" * peak_penalty g +
  COMFORT_WEIGHTS "high_pressure_area" * area_penalty g +
  COMFORT_WEIGHTS "zone_bias" * zone_penalty g +
  COMFORT_WEIGHTS "asymmetry" * asymmetry_penalty g +
  COMFORT_WEIGHTS "temporal_variation" * temporal_penalty g prev +
  COMFORT_WEIGHTS "pressure_persistence" * persistence_penalty g prev

/-- The `penalties` mapping of a comfort record (each entry rounded to 3
decimals by the source). -/
structure Penalties where
  pressure_peak : ℚ
  high_pressure_area : ℚ
  zone_bias : ℚ
  asymmetry : ℚ
  temporal_variation : ℚ
  pressure_persistence : ℚ
deriving DecidableEq

/-- One per-step comfort record. -/
structure ComfortRecord where
  comfort_index : ℤ
  penalties : Penalties
deriving DecidableEq

/-- Model of `compute_comfort(pressure_grid, previous_grid)`. -/
def compute_comfort {r c : ℕ} (g : Grid r c) (prev : Option (Grid r c)) :
    ComfortRecord :=
  { comfort_index := pyRound (100 * (1 - clip01 (total_penalty g prev)))
    penalties :=
      { pressure_peak := pyRoundTo 3 (peak_penalty g)
        high_pressure_area := pyRoundTo 3 (area_penalty g)
        zone_bias := pyRoundTo 3 (zone_penalty g)
        asymmetry := pyRoundTo 3 (asymmetry_penalty g)
        temporal_variation := pyRoundTo 3 (temporal_penalty g prev)
        pressure_persistence := pyRoundTo 3 (persistence_penalty g prev) } }

theorem temporal_penalty_nonneg {r c : ℕ} (g : Grid r c) (prev : Option (Grid r c)) :
    0 ≤ temporal_penalty g prev := by
  cases prev with
  | none => norm_num [temporal_penalty]
  | some p => exact clip01_nonneg _

theorem temporal_penalty_le_one {r c : ℕ} (g : Grid r c) (prev : Option (Grid r c)) :
    temporal_penalty g prev ≤ 1 := by
  cases prev with
  | none => norm_num [temporal_penalty]
  | some p => exact clip01_le_one _

theorem persistence_penalty_nonneg {r c : ℕ} (g : Grid r c) (prev : Option (Grid r c)) :
    0 ≤ persistence_penalty g prev := by
  unfold persistence_penalty
  split
  · exact clip01_nonneg _
  · norm_num

theorem persistence_penalty_le_one {r c : ℕ} (g : Grid r c) (prev : Option (Grid r c)) :
    persistence_penalty g prev ≤ 1 := by
  unfold persistence_penalty
  split
  · exact clip01_le_one _
  · norm_num

/-- C5: the comfort index equals `round(100·(1 − clip(weighted_sum, 0, 1)))`
for the fixed weights `0.20, 0.20, 0.15, 0.15, 0.15, 0.15` (which sum to 1),
it always lies in `[0, 100]`, and each of the six penalties lies in `[0,1]`. -/
theorem compute_comfort_index_formula {r c : ℕ} (g : Grid r c)
    (prev : Option (Grid r c)) :
    (compute_comfort g prev).comfort_index
      = pyRound (100 * (1 - clip01 (0.20 * peak_penalty g + 0.20 * area_penalty g
        + 0.15 * zone_penalty g + 0.15 * asymmetry_penalty g
        + 0.15 * temporal_penalty g prev + 0.15 * persistence_penalty g prev)))
    ∧ 0 ≤ (compute_comfort g prev).comfort_index
    ∧ (compute_comfort g prev).comfort_index ≤ 100
    ∧ COMFORT_WEIGHTS "pressure_peak" + COMFORT_WEIGHTS "high_pressure_area"
        + COMFORT_WEIGHTS "zone_bias" + COMFORT_WEIGHTS "asymmetry"
        + COMFORT_WEIGHTS "temporal_variation"
        + COMFORT_WEIGHTS "pressure_persistence" = 1
    ∧ (0 ≤ peak_penalty g ∧ peak_penalty g ≤ 1)
    ∧ (0 ≤ area_penalty g ∧ area_penalty g ≤ 1)
    ∧ (0 ≤ zone_penalty g ∧ zone_penalty g ≤ 1)
    ∧ (0 ≤ asymmetry_penalty g ∧ asymmetry_penalty g ≤ 1)
    ∧ (0 ≤ temporal_penalty g prev ∧ temporal_penalty g prev ≤ 1)
    ∧ (0 ≤ persistence_penalty g prev ∧ persistence_penalty g prev ≤ 1) := by
  have hidx : (compute_comfort g prev).comfort_index
      = pyRound (100 * (1 - clip01 (total_penalty g prev))) := rfl
  refine ⟨?_, ?_, ?_, by norm_num [COMFORT_WEIGHTS], ⟨clip01_nonneg _, clip01_le_one _⟩,
    ⟨clip01_nonneg _, clip01_le_one _⟩, ⟨clip01_nonneg _, clip01_le_one _⟩,
    ⟨clip01_nonneg _, clip01_le_one _⟩,
    ⟨temporal_penalty_nonneg g prev, temporal_penalty_le_one g prev⟩,
    ⟨persistence_penalty_nonneg g prev, persistence_penalty_le_one g prev⟩⟩
  · rw [hidx]
    norm_num [total_penalty, COMFORT_WEIGHTS]
  · rw [hidx]
    refine pyRound_nonneg ?_
    have := clip01_le_one (total_penalty g prev)
    linarith
  · rw [hidx]
    refine pyRound_le_int (n := 100) ?_
    have := clip01_nonneg (total_penalty g prev)
    push_cast
    linarith

/-- The all-zero grid at the source's 20×10 shape. -/
def zeroGrid : Grid GRID_ROWS GRID_COLS := fun _ _ => 0

theorem gridMean_zeroGrid : gridMean zeroGrid = 0 := by
  norm_num [gridMean, gridSum, zeroGrid]

/-- C10 counterexample: on the all-zero first-step grid the temporal penalty
is `0`, yet the persistence penalty is `clip01(max(0, 1e-8)/0.15) =
1/15000000`, not `clip01(mean/MAX_CELL_PRESSURE) = 0`: the `1e-8` floor
inside `mean_p` makes the claimed formula `clamp(mean(grid)/MAX, 0, 1)`
fail at grids of near-zero mean. -/
theorem first_step_persistence_counterexample :
    temporal_penalty zeroGrid none = 0
    ∧ persistence_penalty zeroGrid none
        ≠ clip01 (gridMean zeroGrid / MAX_CELL_PRESSURE) := by
  constructor
  · norm_num [temporal_penalty]
  · have hm : mean_p zeroGrid = 1e-8 := by
      norm_num [mean_p, gridMean_zeroGrid]
    have hp : persistence_penalty zeroGrid none = clip01 ((1e-8 : ℚ) / MAX_CELL_PRESSURE) := by
      unfold persistence_penalty
      rw [if_pos (by norm_num [temporal_penalty]), hm]
    rw [hp, gridMean_zeroGrid]
    norm_num [clip01, MAX_CELL_PRESSURE]

/-- C10 (amended): on the first step the temporal penalty is exactly `0`
(hence below the `0.2` threshold, so the persistence penalty is applied);
the persistence penalty equals `clip01(max(mean(grid), 1e-8)/MAX_CELL_PRESSURE)`,
is always strictly positive (in particular positive whenever the mean
pressure is positive), and coincides with the claimed
`clip01(mean(grid)/MAX_CELL_PRESSURE)` whenever `mean(grid) ≥ 1e-8`. -/
theorem first_step_persistence_penalty {r c : ℕ} (g : Grid r c) :
    temporal_penalty g none = 0
    ∧ temporal_penalty g none < 0.2
    ∧ persistence_penalty g none = clip01 (max (gridMean g) 1e-8 / MAX_CELL_PRESSURE)
    ∧ 0 < persistence_penalty g none
    ∧ (1e-8 ≤ gridMean g →
        persistence_penalty g none = clip01 (gridMean g / MAX_CELL_PRESSURE)) := by
  have ht : temporal_penalty g none = 0 := by norm_num [temporal_penalty]
  have hp : persistence_penalty g none = clip01 (mean_p g / MAX_CELL_PRESSURE) := by
    unfold persistence_penalty
    rw [if_pos (by rw [ht]; norm_num)]
  have hpos : 0 < mean_p g / MAX_CELL_PRESSURE := by
    have h1 : (0 : ℚ) < mean_p g :=
      lt_of_lt_of_le (by norm_num) (le_max_right (gridMean g) 1e-8)
    have h2 : (0 : ℚ) < MAX_CELL_PRESSURE := by norm_num [MAX_CELL_PRESSURE]
    positivity
  refine ⟨ht, by rw [ht]; norm_num, hp, ?_, ?_⟩
  · rw [hp]
    exact clip01_pos hpos
  · intro hge
    rw [hp]
    unfold mean_p
    rw [max_eq_left hge]

/-- Witness for the amended C10 theorem at the constant `0.1` 1×1 grid. -/
theorem first_step_persistence_penalty_witness :
    (1e-8 : ℚ) ≤ gridMean (fun _ _ => 0.1 : Grid 1 1)
    ∧ persistence_penalty (fun _ _ => 0.1 : Grid 1 1) none
        = clip01 (gridMean (fun _ _ => 0.1 : Grid 1 1) / MAX_CELL_PRESSURE) :=
  ⟨by norm_num [gridMean, gridSum],
    (first_step_persistence_penalty (fun _ _ => 0.1 : Grid 1 1)).2.2.2.2
      (by norm_num [gridMean, gridSum])⟩

/-! ## `core/pressure_field.py` -/

/-- Abstract interpretations of the transcendental float library functions
used by the source.  Every theorem below quantifies over an arbitrary
interpretation, so it holds in particular for the actual float
implementations:
* `expQ x` models `np.exp(x)` at a rational argument;
* `powQ b e` models `np.power(b, e)` (fractional exponent);
* `sinQ frac phase` models `sin(π·frac + phase)` — the source evaluates
  `np.sin` only at arguments `x + step·0.1` with `x = linspace(0, π, rows)`,
  i.e. at `π·(i/(rows-1)) + step/10`, so the rational pair
  `(i/(rows-1), step/10)` determines the argument exactly. -/
structure Transcendentals where
  expQ : ℚ → ℚ
  powQ : ℚ → ℚ → ℚ
  sinQ : ℚ → ℚ → ℚ

/-- Model of `_base_longitudinal_profile()`: `1.4·exp(-3.5·x) + 0.35` over
`x = linspace(0, 1, GRID_ROWS)`. -/
def base_longitudinal_profile (T : Transcendentals) : Fin GRID_ROWS → ℚ :=
  fun i => 1.4 * T.expQ (-3.5 * ((i.val : ℚ) / ((GRID_ROWS : ℚ) - 1))) + 0.35

/-- Model of `_apply_arch_bias(profile, arch_bias)`: scale the middle rows
(`int(0.35·rows)` to `int(0.65·rows)`) by `1 - arch_bias`. -/
def apply_arch_bias (profile : Fin GRID_ROWS → ℚ) (arch_bias : ℚ) :
    Fin GRID_ROWS → ℚ :=
  fun i =>
    if sliceIndex 0.35 GRID_ROWS ≤ i.val ∧ i.val < sliceIndex 0.65 GRID_ROWS
    then profile i * (1.0 - arch_bias) else profile i

/-- Model of `_lateral_weight(row_idx)` over `x = linspace(-1, 1, GRID_COLS)`. -/
def lateral_weight (T : Transcendentals) (row_idx : ℕ) : Fin GRID_COLS → ℚ :=
  fun j =>
    let x : ℚ := -1 + 2 * (j.val : ℚ) / ((GRID_COLS : ℚ) - 1)
    let row_ratio : ℚ := (row_idx : ℚ) / (GRID_ROWS : ℚ)
    if row_ratio < 0.35 then T.expQ (-(x ^ 2) / (2 * 0.35 ^ 2))
    else if row_ratio < 0.6 then T.expQ (-(x ^ 2) / (2 * 0.18 ^ 2)) * 0.6
    else T.expQ (-((x + 0.35) ^ 2) / 0.08) + T.expQ (-((x - 0.35) ^ 2) / 0.08)

/-- Model of `_expand_to_grid(longitudinal_profile)`. -/
def expand_to_grid (T : Transcendentals) (profile : Fin GRID_ROWS → ℚ) :
    Grid GRID_ROWS GRID_COLS :=
  fun i j => profile i * lateral_weight T i.val j

/-- Model of `_apply_contact_capacity(grid, capacity)`:
`np.power(grid, max(0.6, 1.4 - capacity))`. -/
def apply_contact_capacity (T : Transcendentals) {r c : ℕ} (g : Grid r c)
    (capacity : ℚ) : Grid r c :=
  fun i j => T.powQ (g i j) (max 0.6 (1.4 - capacity))

/-- One Jacobi sweep of `_smooth_grid_bounded`: each cell becomes the average
of itself and its existing 4-neighbors (the source's `neighbors` list). -/
def jacobi_sweep {r c : ℕ} (g : Grid r c) : Grid r c :=
  fun i j =>
    let neighbors : List ℚ := [g i j]
      ++ (if h : 0 < i.val then
            [g ⟨i.val - 1, lt_of_le_of_lt (Nat.sub_le _ _) i.isLt⟩ j] else [])
      ++ (if h : i.val < r - 1 then [g ⟨i.val + 1, by omega⟩ j] else [])
      ++ (if h : 0 < j.val then
            [g i ⟨j.val - 1, lt_of_le_of_lt (Nat.sub_le _ _) j.isLt⟩] else [])
      ++ (if h : j.val < c - 1 then [g i ⟨j.val + 1, by omega⟩] else [])
    neighbors.sum / (neighbors.length : ℚ)

/-- The iteration count `int((1.0 - stiffness_factor) * iterations)` of
`_smooth_grid_bounded`. -/
def smoothSteps (stiffness_factor : ℚ) (iterations : ℕ) : ℕ :=
  (pyInt ((1.0 - stiffness_factor) * iterations)).toNat

/-- Model of `_smooth_grid_bounded(grid, stiffness_factor, iterations=4)`. -/
def smooth_grid_bounded {r c : ℕ} (g : Grid r c) (stiffness_factor : ℚ)
    (iterations : ℕ := 4) : Grid r c :=
  (List.range (smoothSteps stiffness_factor iterations)).foldl
    (fun acc _ => jacobi_sweep acc) g

/-- Model of `generate_pressure_field(params)`. -/
def generate_pressure_field (T : Transcendentals) (params : SimParams) :
    Grid GRID_ROWS GRID_COLS :=
  smooth_grid_bounded
    (apply_contact_capacity T
      (expand_to_grid T
        (apply_arch_bias (base_longitudinal_profile T) params.arch_bias))
      params.contact_capacity)
    params.stiffness_factor

/-- L1 distance between two indices. -/
def dist1 (a b : ℕ) : ℕ := ((a : ℤ) - (b : ℤ)).natAbs

/-- The 4-neighbor stencil at `(i, j)` clamped to the grid: all grid
positions at L1 distance at most 1 — an independent, spec-side description
of "existing neighbors plus itself". -/
def stencil {r c : ℕ} (i : Fin r) (j : Fin c) : Finset (Fin r × Fin c) :=
  Finset.univ.filter (fun p => dist1 p.1.val i.val + dist1 p.2.val j.val ≤ 1)

theorem mem_stencil_iff {r c : ℕ} {i : Fin r} {j : Fin c} (p : Fin r × Fin c) :
    p ∈ stencil i j ↔
      (p.1.val = i.val ∧ p.2.val = j.val)
      ∨ (p.1.val + 1 = i.val ∧ p.2.val = j.val)
      ∨ (p.1.val = i.val + 1 ∧ p.2.val = j.val)
      ∨ (p.1.val = i.val ∧ p.2.val + 1 = j.val)
      ∨ (p.1.val = i.val ∧ p.2.val = j.val + 1) := by
  simp only [stencil, Finset.mem_filter, Finset.mem_univ, true_and, dist1]
  omega

/-- The positions the source's `neighbors` list reads, in source order. -/
def posList {r c : ℕ} (i : Fin r) (j : Fin c) : List (Fin r × Fin c) :=
  [(i, j)]
  ++ (if h : 0 < i.val then
        [(⟨i.val - 1, lt_of_le_of_lt (Nat.sub_le _ _) i.isLt⟩, j)] else [])
  ++ (if h : i.val < r - 1 then [(⟨i.val + 1, by omega⟩, j)] else [])
  ++ (if h : 0 < j.val then
        [(i, ⟨j.val - 1, lt_of_le_of_lt (Nat.sub_le _ _) j.isLt⟩)] else [])
  ++ (if h : j.val < c - 1 then [(i, ⟨j.val + 1, by omega⟩)] else [])

theorem jacobi_sweep_eq_posList {r c : ℕ} (g : Grid r c) (i : Fin r) (j : Fin c) :
    jacobi_sweep g i j
      = ((posList i j).map (fun p => g p.1 p.2)).sum / (((posList i j).length : ℕ) : ℚ) := by
  unfold jacobi_sweep posList
  split_ifs <;> simp

theorem posList_nodup {r c : ℕ} (i : Fin r) (j : Fin c) : (posList i j).Nodup := by
  unfold posList
  split_ifs <;>
    simp_all [List.Nodup, List.pairwise_cons, Prod.ext_iff, Fin.ext_iff] <;>
    (repeat' apply And.intro) <;>
    (intros; omega)

theorem posList_toFinset {r c : ℕ} (i : Fin r) (j : Fin c) :
    (posList i j).toFinset = stencil i j := by
  ext p
  have hi := i.isLt
  have hj := j.isLt
  have hp1 := p.1.isLt
  have hp2 := p.2.isLt
  rw [List.mem_toFinset, mem_stencil_iff]
  unfold posList
  split_ifs <;>
    simp_all [Prod.ext_iff, Fin.ext_iff] <;>
    omega

/-- Each Jacobi sweep cell is the average of the grid over the clamped
4-neighbor stencil (itself plus its existing neighbors). -/
theorem jacobi_sweep_stencil_avg {r c : ℕ} (g : Grid r c) (i : Fin r) (j : Fin c) :
    jacobi_sweep g i j
      = (∑ p ∈ stencil i j, g p.1 p.2) / (((stencil i j).card : ℕ) : ℚ) := by
  rw [jacobi_sweep_eq_posList, ← posList_toFinset]
  rw [List.sum_toFinset _ (posList_nodup i j)]
  rw [List.toFinset_card_of_nodup (posList_nodup i j)]

theorem foldl_const_iterate {α : Type} (f : α → α) (g : α) (n : ℕ) :
    (List.range n).foldl (fun acc _ => f acc) g = f^[n] g := by
  induction n with
  | zero => simp
  | succ n ih =>
    rw [List.range_succ, List.foldl_append, ih, Function.iterate_succ_apply']
    simp

/-- C6 (amended): for any stiffness factor in `[0,1]`, bounded smoothing
performs exactly `⌊(1 − stiffness_factor)·4⌋` Jacobi sweeps (the source's
`int(...)` truncation, not `round(...)`), and each sweep replaces every cell
by the average of the grid over the cell's clamped 4-neighbor stencil
(existing neighbors plus itself — zero-flux edges). -/
theorem smooth_grid_bounded_spec {r c : ℕ} (g : Grid r c) (s : ℚ)
    (h0 : 0 ≤ s) (h1 : s ≤ 1) :
    smooth_grid_bounded g s = jacobi_sweep^[(⌊(1 - s) * 4⌋).toNat] g
    ∧ ∀ (g2 : Grid r c) (i : Fin r) (j : Fin c), jacobi_sweep g2 i j
        = (∑ p ∈ stencil i j, g2 p.1 p.2) / (((stencil i j).card : ℕ) : ℚ) := by
  constructor
  · have harg : ((1.0 : ℚ) - s) * ((4 : ℕ) : ℚ) = (1 - s) * 4 := by
      push_cast
      norm_num
    have hsteps : smoothSteps s 4 = (⌊(1 - s) * 4⌋).toNat := by
      unfold smoothSteps pyInt
      rw [harg, if_neg (not_lt.mpr (by nlinarith : (0 : ℚ) ≤ (1 - s) * 4))]
    simp only [smooth_grid_bounded, hsteps, foldl_const_iterate]
  · exact fun g2 i j => jacobi_sweep_stencil_avg g2 i j

/-- Witness for the amended C6 theorem at stiffness `1/2` on a 1×3 grid. -/
theorem smooth_grid_bounded_spec_witness :
    (0 : ℚ) ≤ 1/2 ∧ (1/2 : ℚ) ≤ 1 ∧
    smooth_grid_bounded (![![0, 0, 1]] : Grid 1 3) (1/2)
      = jacobi_sweep^[(⌊((1 : ℚ) - 1/2) * 4⌋).toNat] (![![0, 0, 1]] : Grid 1 3) :=
  ⟨by norm_num, by norm_num,
    (smooth_grid_bounded_spec (![![0, 0, 1]] : Grid 1 3) (1/2)
      (by norm_num) (by norm_num)).1⟩

/-- The 1×3 grid `[[0, 0, 1]]` exercising the smoothing iteration count. -/
def rampGrid : Grid 1 3 := ![![0, 0, 1]]

/-- C6 counterexample: at `stiffness_factor = 0.3` the source performs
`int(2.8) = 2` Jacobi sweeps, while the claimed `round(2.8) = 3`, and the two
iteration counts produce different grids on `[[0, 0, 1]]`. -/
theorem smoothing_iteration_counterexample :
    smoothSteps (0.3 : ℚ) 4 = 2
    ∧ pyRound ((1 - (0.3 : ℚ)) * 4) = 3
    ∧ smooth_grid_bounded rampGrid (0.3 : ℚ) = jacobi_sweep^[2] rampGrid
    ∧ jacobi_sweep^[2] rampGrid ≠ jacobi_sweep^[3] rampGrid := by
  have hfloor : ⌊(14/5 : ℚ)⌋ = 2 := by
    rw [Int.floor_eq_iff]
    norm_num
  have harg : ((1.0 : ℚ) - 0.3) * ((4 : ℕ) : ℚ) = 14/5 := by
    push_cast
    norm_num
  have hsteps : smoothSteps (0.3 : ℚ) 4 = 2 := by
    unfold smoothSteps pyInt
    rw [harg, if_neg (by norm_num), hfloor]
    rfl
  have j1 : jacobi_sweep rampGrid = ![![0, 1/3, 1/2]] := by
    funext i j
    fin_cases i <;> fin_cases j <;>
      norm_num [jacobi_sweep, rampGrid]
  have j2 : jacobi_sweep (![![0, 1/3, 1/2]] : Grid 1 3) = ![![1/6, 5/18, 5/12]] := by
    funext i j
    fin_cases i <;> fin_cases j <;>
      norm_num [jacobi_sweep]
  have j3 : jacobi_sweep (![![1/6, 5/18, 5/12]] : Grid 1 3) = ![![2/9, 31/108, 25/72]] := by
    funext i j
    fin_cases i <;> fin_cases j <;>
      norm_num [jacobi_sweep]
  have hit1 : jacobi_sweep^[1] rampGrid = ![![0, 1/3, 1/2]] := by
    rw [Function.iterate_one, j1]
  have hit2 : jacobi_sweep^[2] rampGrid = ![![1/6, 5/18, 5/12]] := by
    rw [show (2 : ℕ) = 1 + 1 from rfl, Function.iterate_succ_apply', hit1, j2]
  have hit3 : jacobi_sweep^[3] rampGrid = ![![2/9, 31/108, 25/72]] := by
    show jacobi_sweep^[2 + 1] rampGrid = _
    rw [Function.iterate_succ_apply', hit2, j3]
  refine ⟨hsteps, ?_, ?_, ?_⟩
  · unfold pyRound
    rw [show ((1 : ℚ) - 0.3) * 4 = 14/5 by norm_num, hfloor]
    norm_num
  · simp only [smooth_grid_bounded, hsteps]
    rw [foldl_const_iterate]
  · rw [hit2, hit3]
    intro h
    have h00 := congrFun (congrFun h 0) 0
    norm_num at h00

/-! ## `core/temporal_evolution.py` -/

/-- Model of `_longitudinal_load_shift(step, variation)` at row `i`:
`variation · sin(x_i + step·0.1)` with `x = linspace(0, π, GRID_ROWS)`,
i.e. `x_i = π·(i/(GRID_ROWS-1))`, abstracted through `sinQ`. -/
def longitudinal_load_shift (T : Transcendentals) (step : ℕ) (variation : ℚ) :
    Fin GRID_ROWS → ℚ :=
  fun i => variation * T.sinQ ((i.val : ℚ) / ((GRID_ROWS : ℚ) - 1)) ((step : ℚ) * 0.1)

/-- Model of `evolve_pressure_field(previous_grid, base_grid, step, activity_variation,
relaxation_rate=0.15)`: relax toward the modulated base grid. -/
def evolve_pressure_field (T : Transcendentals)
    (previous_grid base_grid : Grid GRID_ROWS GRID_COLS) (step : ℕ)
    (activity_variation : ℚ) (relaxation_rate : ℚ := 0.15) :
    Grid GRID_ROWS GRID_COLS :=
  let alpha := max (min relaxation_rate 1.0) 0.0
  fun i j =>
    (1.0 - alpha) * previous_grid i j
      + alpha * (base_grid i j * (1.0 + longitudinal_load_shift T step activity_variation i))

/-! ## `core/wear_model.py` -/

/-- Model of `dt = max(time_step, 0)`. -/
def wear_dt (time_step : ℕ) : ℚ := max (time_step : ℚ) 0

/-- Model of `material_response = (1.0 - durability)**2` with the clamped durability. -/
def material_response (durability_factor : ℚ) : ℚ :=
  (1.0 - max (min durability_factor 1.0) 0.0) ^ 2

/-- Model of `area_modifier = 1.0 + fraction of cells above 0.6·MAX_CELL_PRESSURE`. -/
def area_modifier {r c : ℕ} (pressure_grid : Grid r c) : ℚ :=
  1.0 + gridCount pressure_grid (fun x => 0.6 * MAX_CELL_PRESSURE < x)
    / ((r * c : ℕ) : ℚ)

/-- Model of `persistence_modifier`: `1.0` when no previous grid exists, else
`1.0 + 0.5·(1 − min(mean|Δ|/MAX_CELL_PRESSURE, 1))`. -/
def wear_persistence_modifier {r c : ℕ} (pressure_grid : Grid r c)
    (previous_pressure : Option (Grid r c)) : ℚ :=
  match previous_pressure with
  | none => 1.0
  | some p =>
      1.0 + 0.5 * (1.0 - min (gridMean (fun i j => |pressure_grid i j - p i j|)
        / MAX_CELL_PRESSURE) 1.0)

/-- The per-cell zone modifier: the product of the three slice
multiplications the source applies to a grid of ones
(`[:forefoot_end] *= 1.1`, `[heel_start:] *= 1.1`,
`[forefoot_end:heel_start] *= 0.9`). -/
def zone_modifier (r : ℕ) (i : Fin r) : ℚ :=
  (if i.val < sliceIndex 0.3 r then 1.1 else 1)
    * (if sliceIndex 0.7 r ≤ i.val then 1.1 else 1)
    * (if sliceIndex 0.3 r ≤ i.val ∧ i.val < sliceIndex 0.7 r then 0.9 else 1)

/-- The nonlinear, peak-sensitive `wear_increment` of `accumulate_wear`. -/
def wear_increment (T : Transcendentals) {r c : ℕ} (pressure_grid : Grid r c)
    (previous_pressure : Option (Grid r c)) (durability_factor : ℚ)
    (activity_wear_rate : ℚ) (time_step : ℕ) (i : Fin r) (j : Fin c) : ℚ :=
  T.powQ (pressure_grid i j / MAX_CELL_PRESSURE) WEAR_NONLINEARITY
    * WEAR_RATE * wear_dt time_step * activity_wear_rate
    * material_response durability_factor * area_modifier pressure_grid
    * wear_persistence_modifier pressure_grid previous_pressure
    * zone_modifier r i

/-- Model of `accumulate_wear(previous_wear, pressure_grid, previous_pressure,
durability_factor, activity_wear_rate, time_step=1)`: accumulate the
increment and saturate to `[0, MAX_WEAR]`. -/
def accumulate_wear (T : Transcendentals) {r c : ℕ} (previous_wear : Grid r c)
    (pressure_grid : Grid r c) (previous_pressure : Option (Grid r c))
    (durability_factor : ℚ) (activity_wear_rate : ℚ) (time_step : ℕ := 1) :
    Grid r c :=
  fun i j =>
    clipTo 0.0 MAX_WEAR (previous_wear i j
      + wear_increment T pressure_grid previous_pressure durability_factor
          activity_wear_rate time_step i j)

theorem gridCount_nonneg {r c : ℕ} (g : Grid r c) (p : ℚ → Prop) [DecidablePred p] :
    0 ≤ gridCount g p := by
  refine Finset.sum_nonneg fun i _ => Finset.sum_nonneg fun j _ => ?_
  split <;> norm_num

theorem wear_increment_nonneg (T : Transcendentals)
    (hpow : ∀ x y, 0 ≤ x → 0 ≤ T.powQ x y) {r c : ℕ} (pg : Grid r c)
    (pp : Option (Grid r c)) (df awr : ℚ) (ts : ℕ) (hawr : 0 ≤ awr)
    (hpg : ∀ i j, 0 ≤ pg i j) (i : Fin r) (j : Fin c) :
    0 ≤ wear_increment T pg pp df awr ts i j := by
  have hMC : (0 : ℚ) < MAX_CELL_PRESSURE := by norm_num [MAX_CELL_PRESSURE]
  have hpow0 : 0 ≤ T.powQ (pg i j / MAX_CELL_PRESSURE) WEAR_NONLINEARITY :=
    hpow _ _ (div_nonneg (hpg i j) (le_of_lt hMC))
  have hWR : (0 : ℚ) ≤ WEAR_RATE := by norm_num [WEAR_RATE]
  have hdt : 0 ≤ wear_dt ts := le_max_right _ _
  have hmat : 0 ≤ material_response df := sq_nonneg _
  have harea : 0 ≤ area_modifier pg := by
    have h1 := gridCount_nonneg pg (fun x => 0.6 * MAX_CELL_PRESSURE < x)
    have hc : (0 : ℚ) ≤ ((r * c : ℕ) : ℚ) := by positivity
    have h2 := div_nonneg h1 hc
    unfold area_modifier
    linarith
  have hpers : 0 ≤ wear_persistence_modifier pg pp := by
    unfold wear_persistence_modifier
    cases pp with
    | none => norm_num
    | some p =>
        have hmin : min (gridMean (fun i j => |pg i j - p i j|) / MAX_CELL_PRESSURE) 1.0
            ≤ 1.0 := min_le_right _ _
        simp only
        linarith
  have hzone : 0 ≤ zone_modifier r i := by
    unfold zone_modifier
    split_ifs <;> norm_num
  unfold wear_increment
  exact mul_nonneg (mul_nonneg (mul_nonneg (mul_nonneg (mul_nonneg
    (mul_nonneg (mul_nonneg hpow0 hWR) hdt) hawr) hmat) harea) hpers) hzone

/-- One wear-accumulation step starting from bounded wear with nonnegative
pressure is cell-wise monotone and stays within `[0, MAX_WEAR]`: the
increment is a product of nonnegative factors, and the final clip keeps the
bounds. -/
theorem accumulate_wear_mono_bounded (T : Transcendentals)
    (hpow : ∀ x y, 0 ≤ x → 0 ≤ T.powQ x y) {r c : ℕ}
    (pw pg : Grid r c) (pp : Option (Grid r c)) (df awr : ℚ) (ts : ℕ)
    (hawr : 0 ≤ awr) (hpg : ∀ i j, 0 ≤ pg i j)
    (hw : ∀ i j, 0 ≤ pw i j ∧ pw i j ≤ MAX_WEAR) (i : Fin r) (j : Fin c) :
    pw i j ≤ accumulate_wear T pw pg pp df awr ts i j
    ∧ 0 ≤ accumulate_wear T pw pg pp df awr ts i j
    ∧ accumulate_wear T pw pg pp df awr ts i j ≤ MAX_WEAR := by
  have hMW : (0.0 : ℚ) ≤ MAX_WEAR := by norm_num [MAX_WEAR]
  have hincr := wear_increment_nonneg T hpow pg pp df awr ts hawr hpg i j
  have hw0 := (hw i j).1
  have hw1 := (hw i j).2
  unfold accumulate_wear
  refine ⟨?_, ?_, ?_⟩
  · unfold clipTo
    refine le_min (le_trans (by linarith) (le_max_left _ _)) hw1
  · have := clipTo_ge (pw i j + wear_increment T pg pp df awr ts i j) hMW
    linarith [this]
  · exact clipTo_le _

/-! ## `utils/validators.py`

The validation boundary (outside the core).  A record that passed
`validate_simulation_inputs` satisfies this predicate; the enum fields are
already lowercased members of the allowed sets. -/

def ValidInputs (inputs : RawInputs) : Prop :=
  20 ≤ inputs.body_weight ∧ inputs.body_weight ≤ 300
  ∧ 30 ≤ inputs.foot_size ∧ inputs.foot_size ≤ 50
  ∧ inputs.arch_type ∈ ["flat", "normal", "high"]
  ∧ inputs.activity_mode ∈ ["standing", "walking", "running", "stairs", "jumping"]
  ∧ 0 ≤ inputs.sole_stiffness ∧ inputs.sole_stiffness ≤ 1
  ∧ 0 ≤ inputs.material_durability ∧ inputs.material_durability ≤ 1

instance (inputs : RawInputs) : Decidable (ValidInputs inputs) := by
  unfold ValidInputs
  infer_instance

/-! ## `core/orchestrator.py` — the per-step loop -/

/-- The loop-local state of `run_simulation`. -/
structure LoopState where
  pressure_grid : Grid GRID_ROWS GRID_COLS
  previous_pressure : Option (Grid GRID_ROWS GRID_COLS)
  wear_grid : Grid GRID_ROWS GRID_COLS
  comfort_history : List ComfortRecord
  pressure_history : List (Grid GRID_ROWS GRID_COLS)
  wear_history : List (Grid GRID_ROWS GRID_COLS)
  wear_history_visible : List (Grid GRID_ROWS GRID_COLS)

/-- Model of `target_force = params["load_factor"] * params["activity_load"]`. -/
def target_force (params : SimParams) : ℚ :=
  params.load_factor * params.activity_load

/-- One iteration of the `for step in range(steps)` loop: evolve, constrain,
score comfort, accumulate wear, append to the histories, thread the state. -/
def sim_step (T : Transcendentals) (params : SimParams)
    (base_grid : Grid GRID_ROWS GRID_COLS) (st : LoopState) (step : ℕ) :
    LoopState :=
  let evolved := evolve_pressure_field T st.pressure_grid base_grid step
    params.activity_variation
  let constrained := apply_constraints evolved (target_force params)
  let comfort := compute_comfort constrained st.previous_pressure
  let wear := accumulate_wear T st.wear_grid constrained st.previous_pressure
    params.durability_factor params.activity_wear_rate 1
  { pressure_grid := constrained
    previous_pressure := some constrained
    wear_grid := wear
    comfort_history := st.comfort_history ++ [comfort]
    pressure_history := st.pressure_history ++ [constrained]
    wear_history := st.wear_history ++ [wear]
    wear_history_visible := st.wear_history_visible
      ++ [fun i j => wear i j * WEAR_VISIBILITY_GAIN] }

/-- The loop state before the first iteration (`wear_grid = zeros_like`). -/
def init_state (base_grid : Grid GRID_ROWS GRID_COLS) : LoopState :=
  { pressure_grid := base_grid
    previous_pressure := none
    wear_grid := fun _ _ => 0
    comfort_history := []
    pressure_history := []
    wear_history := []
    wear_history_visible := [] }

/-- The whole `for step in range(steps)` loop. -/
def run_loop (T : Transcendentals) (params : SimParams)
    (base_grid : Grid GRID_ROWS GRID_COLS) (steps : ℕ) : LoopState :=
  (List.range steps).foldl (sim_step T params base_grid) (init_state base_grid)

theorem run_loop_succ (T : Transcendentals) (params : SimParams)
    (base_grid : Grid GRID_ROWS GRID_COLS) (n : ℕ) :
    run_loop T params base_grid (n + 1)
      = sim_step T params base_grid (run_loop T params base_grid n) n := by
  unfold run_loop
  rw [List.range_succ, List.foldl_append]
  rfl

/-! ## `core/orchestrator.py` — post-simulation analysis -/

/-- Model of `np.mean` of a Python list of scalars. -/
def listMean (l : List ℚ) : ℚ := l.sum / (l.length : ℚ)

/-- The dict `_analyze_trends` returns. -/
structure TrendAnalysis where
  comfort_slope : ℤ
  wear_accelerating : Bool
  pressure_delta : ℚ
  dominant_factors : List String
deriving DecidableEq

/-- The fixed-order penalty totals accumulated by `_analyze_trends`
(Python dict insertion order: the key order of the penalties dict). -/
def penalty_totals (ch : List ComfortRecord) : List (String × ℚ) :=
  [("pressure_peak", (ch.map (fun rec => rec.penalties.pressure_peak)).sum),
   ("high_pressure_area", (ch.map (fun rec => rec.penalties.high_pressure_area)).sum),
   ("zone_bias", (ch.map (fun rec => rec.penalties.zone_bias)).sum),
   ("asymmetry", (ch.map (fun rec => rec.penalties.asymmetry)).sum),
   ("temporal_variation", (ch.map (fun rec => rec.penalties.temporal_variation)).sum),
   ("pressure_persistence", (ch.map (fun rec => rec.penalties.pressure_persistence)).sum)]

/-- Stable descending insertion (Python `sorted(..., reverse=True)` keeps the
original order of equal keys; an element inserted later goes after equals). -/
def insertDescend (x : String × ℚ) : List (String × ℚ) → List (String × ℚ)
  | [] => [x]
  | y :: ys => if y.2 < x.2 then x :: y :: ys else y :: insertDescend x ys

/-- Stable descending sort by the summed penalty value. -/
def sortDescend (l : List (String × ℚ)) : List (String × ℚ) :=
  l.foldl (fun acc x => insertDescend x acc) []

/-- The inter-step mean-absolute-difference list of `_analyze_trends`. -/
def pressureDeltas (ph : List (Grid GRID_ROWS GRID_COLS)) : List ℚ :=
  List.zipWith (fun prev cur => gridMean (fun i j => |cur i j - prev i j|)) ph ph.tail

/-- Model of `_analyze_trends(comfort_history, wear_history, pressure_history)`.
List accesses (`[-1]`, `[0]`, `[mid]`) are modelled with defaults; the
checked variant at the end of the file models their failure on empty
histories. -/
def analyze_trends (ch : List ComfortRecord)
    (wh ph : List (Grid GRID_ROWS GRID_COLS)) : TrendAnalysis :=
  let comfort_values := ch.map (fun rec => rec.comfort_index)
  let comfort_slope := comfort_values.getLastD 0 - comfort_values.headD 0
  let wear_means := wh.map gridMean
  let mid := wear_means.length / 2
  let early_wear_rate := wear_means.getD mid 0 - wear_means.headD 0
  let late_wear_rate := wear_means.getLastD 0 - wear_means.getD mid 0
  let wear_accelerating := decide (early_wear_rate * 1.2 < late_wear_rate)
  let deltas := pressureDeltas ph
  let pressure_delta :=
    if ph.length < 2 then 0.0 else listMean (deltas.drop (deltas.length - 5))
  let dominant := ((sortDescend (penalty_totals ch)).take 2).map Prod.fst
  { comfort_slope := comfort_slope
    wear_accelerating := wear_accelerating
    pressure_delta := pressure_delta
    dominant_factors := dominant }

/-- The dict `_classify_scenario` returns. -/
structure ScenarioSummary where
  scenario_type : String
  stability : String
  dominant_factors : List String
  explanation : String
deriving DecidableEq

/-- Model of `_classify_scenario(analysis)`: ordered if/elif cascades. -/
def classify_scenario (a : TrendAnalysis) : ScenarioSummary :=
  let stability :=
    if a.comfort_slope < -20 then "degrading"
    else if a.pressure_delta < 1e-3 then "stable"
    else "saturated"
  let scenario_type :=
    if "asymmetry" ∈ a.dominant_factors then "imbalance-driven"
    else if "high_pressure_area" ∈ a.dominant_factors then "fatigue-driven"
    else if "pressure_peak" ∈ a.dominant_factors then "overload-driven"
    else "stable"
  { scenario_type := scenario_type
    stability := stability
    dominant_factors := a.dominant_factors
    explanation := "This scenario is " ++ scenario_type.replace "-" " "
      ++ ", with system behavior classified as " ++ stability ++ "." }

/-- The dict `_align_comfort_and_wear` returns. -/
structure AlignmentSummary where
  alignment_regime : String
  comfort_drop_normalized : ℚ
  wear_growth_normalized : ℚ
  interpretation : String
deriving DecidableEq

/-- Model of `_align_comfort_and_wear(comfort_history, wear_history)`. -/
def align_comfort_and_wear (ch : List ComfortRecord)
    (wh : List (Grid GRID_ROWS GRID_COLS)) : AlignmentSummary :=
  let comfort_values := ch.map (fun rec => rec.comfort_index)
  let wear_means := wh.map gridMean
  let comfort_drop : ℤ := comfort_values.headD 0 - comfort_values.getLastD 0
  let wear_growth := wear_means.getLastD 0 - wear_means.headD 0
  let comfort_drop_norm : ℚ :=
    (comfort_drop : ℚ) / ((max (comfort_values.headD 0) 1 : ℤ) : ℚ)
  let wear_growth_norm := wear_growth / max (wear_means.getLastD 0) 1e-6
  let pair : String × String :=
    if 0.3 < comfort_drop_norm ∧ wear_growth_norm < 0.2 then
      ("transient_discomfort",
       "Comfort decreases without significant material wear. Discomfort is likely due to pressure distribution rather than degradation.")
    else if 0.2 < comfort_drop_norm ∧ 0.3 < wear_growth_norm then
      ("fatigue_driven_degradation",
       "Comfort declines alongside accelerating wear. Sustained pressure is degrading the sole material over time.")
    else if comfort_drop_norm < 0.1 ∧ 0.3 < wear_growth_norm then
      ("hidden_wear_risk",
       "Material wear accumulates despite acceptable comfort levels. Potential long-term degradation without immediate discomfort.")
    else
      ("balanced",
       "Comfort and wear evolve proportionally with no dominant risk pattern.")
  { alignment_regime := pair.1
    comfort_drop_normalized := pyRoundTo 3 comfort_drop_norm
    wear_growth_normalized := pyRoundTo 3 wear_growth_norm
    interpretation := pair.2 }

/-- The dict `run_simulation` returns (`model_assumptions`, a static constant
mapping, is omitted; `pressure_history` — a loop local in the source — is
kept so that the per-step pressure invariants can be stated). -/
structure SimulationResult where
  final_pressure : Grid GRID_ROWS GRID_COLS
  final_wear : Grid GRID_ROWS GRID_COLS
  comfort_history : List ComfortRecord
  wear_history : List (Grid GRID_ROWS GRID_COLS)
  wear_history_visible : List (Grid GRID_ROWS GRID_COLS)
  pressure_history : List (Grid GRID_ROWS GRID_COLS)
  scenario_summary : ScenarioSummary
  alignment_summary : AlignmentSummary

/-- Model of `run_simulation(raw_inputs, steps=DEFAULT_SIM_STEPS)`. -/
def run_simulation (T : Transcendentals) (raw_inputs : RawInputs)
    (steps : ℕ := DEFAULT_SIM_STEPS) : SimulationResult :=
  let params := normalize_inputs raw_inputs
  let base_grid := generate_pressure_field T params
  let final := run_loop T params base_grid steps
  let analysis := analyze_trends final.comfort_history final.wear_history
    final.pressure_history
  { final_pressure := final.pressure_history.getLastD (fun _ _ => 0)
    final_wear := final.wear_history.getLastD (fun _ _ => 0)
    comfort_history := final.comfort_history
    wear_history := final.wear_history
    wear_history_visible := final.wear_history_visible
    pressure_history := final.pressure_history
    scenario_summary := classify_scenario analysis
    alignment_summary := align_comfort_and_wear final.comfort_history
      final.wear_history }

theorem run_loop_history_lengths (T : Transcendentals) (params : SimParams)
    (base_grid : Grid GRID_ROWS GRID_COLS) (steps : ℕ) :
    (run_loop T params base_grid steps).comfort_history.length = steps
    ∧ (run_loop T params base_grid steps).pressure_history.length = steps
    ∧ (run_loop T params base_grid steps).wear_history.length = steps
    ∧ (run_loop T params base_grid steps).wear_history_visible.length = steps := by
  induction steps with
  | zero => exact ⟨rfl, rfl, rfl, rfl⟩
  | succ n ih =>
    rw [run_loop_succ]
    simp only [sim_step, List.length_append, List.length_singleton]
    exact ⟨by rw [ih.1], by rw [ih.2.1], by rw [ih.2.2.1], by rw [ih.2.2.2]⟩

theorem run_loop_pressure_bounds (T : Transcendentals) (params : SimParams)
    (base_grid : Grid GRID_ROWS GRID_COLS) (steps : ℕ) :
    ∀ g ∈ (run_loop T params base_grid steps).pressure_history, ∀ i j,
      0 ≤ g i j ∧ g i j ≤ MAX_CELL_PRESSURE := by
  induction steps with
  | zero =>
      intro g hg
      simp [run_loop, init_state] at hg
  | succ n ih =>
      rw [run_loop_succ]
      intro g hg
      simp only [sim_step, List.mem_append, List.mem_singleton] at hg
      rcases hg with hg | hg
      · exact ih g hg
      · subst hg
        exact fun i j => apply_constraints_cell_bounds _ _ i j

/-- C1: for every validated input record and every `steps ≥ 1`, every grid
appended to `pressure_history` by `run_simulation` (the `apply_constraints`
output of each step) has all cells within `[0, MAX_CELL_PRESSURE]`; in exact
rational arithmetic every cell is automatically finite. -/
theorem run_simulation_pressure_bounds (T : Transcendentals)
    (inputs : RawInputs) (steps : ℕ)
    (hvalid : ValidInputs inputs) (hsteps : 1 ≤ steps) :
    ∀ g ∈ (run_simulation T inputs steps).pressure_history, ∀ i j,
      0 ≤ g i j ∧ g i j ≤ MAX_CELL_PRESSURE := by
  intro g hg
  exact run_loop_pressure_bounds T (normalize_inputs inputs)
    (generate_pressure_field T (normalize_inputs inputs)) steps g hg

/-- The all-zero interpretation of the transcendental functions, used as a
concrete instance in the witnesses. -/
def T0 : Transcendentals := ⟨fun _ => 0, fun _ _ => 0, fun _ _ => 0⟩

/-- The sample record of §8 of the design document. -/
def sampleInputs : RawInputs := ⟨70, 42, "normal", "walking", 0.5, 0.5⟩

theorem sampleInputs_valid : ValidInputs sampleInputs := by
  refine ⟨by norm_num [sampleInputs], by norm_num [sampleInputs],
    by norm_num [sampleInputs], by norm_num [sampleInputs], ?_, ?_,
    by norm_num [sampleInputs], by norm_num [sampleInputs],
    by norm_num [sampleInputs], by norm_num [sampleInputs]⟩
  · show "normal" ∈ ["flat", "normal", "high"]
    simp
  · show "walking" ∈ ["standing", "walking", "running", "stairs", "jumping"]
    simp

theorem run_simulation_history_lengths (T : Transcendentals)
    (inputs : RawInputs) (steps : ℕ) :
    (run_simulation T inputs steps).comfort_history.length = steps
    ∧ (run_simulation T inputs steps).pressure_history.length = steps
    ∧ (run_simulation T inputs steps).wear_history.length = steps :=
  ⟨(run_loop_history_lengths T _ _ steps).1,
   (run_loop_history_lengths T _ _ steps).2.1,
   (run_loop_history_lengths T _ _ steps).2.2.1⟩

/-- Witness for C1 at the §8 sample record, one step. -/
theorem run_simulation_pressure_bounds_witness :
    ValidInputs sampleInputs ∧ 1 ≤ 1
    ∧ (∀ i j, 0 ≤ (run_simulation T0 sampleInputs 1).pressure_history.head! i j
        ∧ (run_simulation T0 sampleInputs 1).pressure_history.head! i j
            ≤ MAX_CELL_PRESSURE) := by
  have hlen : (run_simulation T0 sampleInputs 1).pressure_history.length = 1 :=
    (run_simulation_history_lengths T0 sampleInputs 1).2.1
  have hne : (run_simulation T0 sampleInputs 1).pressure_history ≠ [] := by
    intro h
    rw [h] at hlen
    simp at hlen
  exact ⟨sampleInputs_valid, le_refl 1,
    run_simulation_pressure_bounds T0 sampleInputs 1 sampleInputs_valid (le_refl 1)
      _ (List.head!_mem_self hne)⟩

/-- Cell-wise ordering of two wear grids. -/
def wearLE (g h : Grid GRID_ROWS GRID_COLS) : Prop := ∀ i j, g i j ≤ h i j

theorem activity_wear_rate_pos (mode : String) :
    0 < ((ACTIVITY_PROFILE mode).getD walkingProfile).wear_rate := by
  unfold ACTIVITY_PROFILE
  split <;> norm_num [walkingProfile, Option.getD]

theorem sim_step_wear_inv (T : Transcendentals)
    (hpow : ∀ x y, 0 ≤ x → 0 ≤ T.powQ x y) (params : SimParams)
    (base_grid : Grid GRID_ROWS GRID_COLS)
    (hawr : 0 ≤ params.activity_wear_rate) (st : LoopState) (step : ℕ)
    (hw : ∀ i j, 0 ≤ st.wear_grid i j ∧ st.wear_grid i j ≤ MAX_WEAR)
    (hch : List.Chain' wearLE st.wear_history)
    (hmem : ∀ g ∈ st.wear_history, ∀ i j, 0 ≤ g i j ∧ g i j ≤ MAX_WEAR)
    (hlast : st.wear_history.getLast? = some st.wear_grid ∨ st.wear_history = []) :
    (∀ i j, 0 ≤ (sim_step T params base_grid st step).wear_grid i j
        ∧ (sim_step T params base_grid st step).wear_grid i j ≤ MAX_WEAR)
    ∧ List.Chain' wearLE (sim_step T params base_grid st step).wear_history
    ∧ (∀ g ∈ (sim_step T params base_grid st step).wear_history, ∀ i j,
        0 ≤ g i j ∧ g i j ≤ MAX_WEAR)
    ∧ ((sim_step T params base_grid st step).wear_history.getLast?
          = some (sim_step T params base_grid st step).wear_grid
        ∨ (sim_step T params base_grid st step).wear_history = []) := by
  have hconstr : ∀ i j, 0 ≤ apply_constraints
      (evolve_pressure_field T st.pressure_grid base_grid step
        params.activity_variation)
      (target_force params) i j :=
    fun i j => (apply_constraints_cell_bounds _ _ i j).1
  have hmb := accumulate_wear_mono_bounded T hpow st.wear_grid
    (apply_constraints
      (evolve_pressure_field T st.pressure_grid base_grid step
        params.activity_variation)
      (target_force params))
    st.previous_pressure params.durability_factor params.activity_wear_rate 1
    hawr hconstr hw
  refine ⟨fun i j => ⟨(hmb i j).2.1, (hmb i j).2.2⟩, ?_, ?_, ?_⟩
  · show List.Chain' wearLE (st.wear_history ++ [_])
    rw [List.chain'_append]
    refine ⟨hch, List.chain'_singleton _, ?_⟩
    intro x hx y hy
    simp only [List.head?_cons, Option.mem_def, Option.some.injEq] at hy
    subst hy
    rcases hlast with hlast | hlast
    · rw [hlast] at hx
      simp only [Option.mem_def, Option.some.injEq] at hx
      subst hx
      exact fun i j => (hmb i j).1
    · rw [hlast] at hx
      simp at hx
  · intro g hg
    simp only [sim_step, List.mem_append, List.mem_singleton] at hg
    rcases hg with hg | hg
    · exact hmem g hg
    · subst hg
      exact fun i j => ⟨(hmb i j).2.1, (hmb i j).2.2⟩
  · left
    show (st.wear_history ++ [_]).getLast? = _
    rw [List.getLast?_concat]
    rfl

theorem run_loop_wear_inv (T : Transcendentals)
    (hpow : ∀ x y, 0 ≤ x → 0 ≤ T.powQ x y) (params : SimParams)
    (base_grid : Grid GRID_ROWS GRID_COLS)
    (hawr : 0 ≤ params.activity_wear_rate) (steps : ℕ) :
    (∀ i j, 0 ≤ (run_loop T params base_grid steps).wear_grid i j
        ∧ (run_loop T params base_grid steps).wear_grid i j ≤ MAX_WEAR)
    ∧ List.Chain' wearLE (run_loop T params base_grid steps).wear_history
    ∧ (∀ g ∈ (run_loop T params base_grid steps).wear_history, ∀ i j,
        0 ≤ g i j ∧ g i j ≤ MAX_WEAR)
    ∧ ((run_loop T params base_grid steps).wear_history.getLast?
          = some (run_loop T params base_grid steps).wear_grid
        ∨ (run_loop T params base_grid steps).wear_history = []) := by
  induction steps with
  | zero =>
      have h01 : (0 : ℚ) ≤ MAX_WEAR := by norm_num [MAX_WEAR]
      refine ⟨fun i j => ⟨le_refl 0, h01⟩, List.chain'_nil, ?_, Or.inr rfl⟩
      intro g hg
      simp [run_loop, init_state] at hg
  | succ n ih =>
      rw [run_loop_succ]
      exact sim_step_wear_inv T hpow params base_grid hawr _ n
        ih.1 ih.2.1 ih.2.2.1 ih.2.2.2

/-- C2: for every validated input record, every `steps ≥ 1`, and every
interpretation of `np.power` that is nonnegative on nonnegative bases, the
wear-history sequence of `run_simulation` is cell-wise non-decreasing
(`Chain'` of the cell-wise order) and every cell of every wear grid lies in
`[0, MAX_WEAR]`. -/
theorem run_simulation_wear_monotone_bounded (T : Transcendentals)
    (inputs : RawInputs) (steps : ℕ)
    (hpow : ∀ x y, 0 ≤ x → 0 ≤ T.powQ x y)
    (hvalid : ValidInputs inputs) (hsteps : 1 ≤ steps) :
    List.Chain' wearLE (run_simulation T inputs steps).wear_history
    ∧ ∀ g ∈ (run_simulation T inputs steps).wear_history, ∀ i j,
        0 ≤ g i j ∧ g i j ≤ MAX_WEAR := by
  have hawr : 0 ≤ (normalize_inputs inputs).activity_wear_rate :=
    le_of_lt (activity_wear_rate_pos inputs.activity_mode)
  have inv := run_loop_wear_inv T hpow (normalize_inputs inputs)
    (generate_pressure_field T (normalize_inputs inputs)) hawr steps
  exact ⟨inv.2.1, inv.2.2.1⟩

/-- Witness for C2 at the §8 sample record. -/
theorem run_simulation_wear_monotone_bounded_witness :
    (∀ x y : ℚ, 0 ≤ x → 0 ≤ T0.powQ x y) ∧ ValidInputs sampleInputs ∧ 1 ≤ 1
    ∧ List.Chain' wearLE (run_simulation T0 sampleInputs 1).wear_history := by
  have hp : ∀ x y : ℚ, 0 ≤ x → 0 ≤ T0.powQ x y := by
    intro x y _
    norm_num [T0]
  exact ⟨hp, sampleInputs_valid, le_refl 1,
    (run_simulation_wear_monotone_bounded T0 sampleInputs 1 hp
      sampleInputs_valid (le_refl 1)).1⟩

/-- C3: `run_simulation` is deterministic — the embedding is a pure function
(the source has no randomness and no hidden state), so two invocations with
equal validated inputs and equal `steps` under the same math library return
results whose histories and summaries are all exactly equal. -/
theorem run_simulation_deterministic (T : Transcendentals)
    (inputs1 inputs2 : RawInputs) (steps1 steps2 : ℕ)
    (hi : inputs1 = inputs2) (hs : steps1 = steps2) :
    run_simulation T inputs1 steps1 = run_simulation T inputs2 steps2
    ∧ (run_simulation T inputs1 steps1).comfort_history
        = (run_simulation T inputs2 steps2).comfort_history
    ∧ (run_simulation T inputs1 steps1).pressure_history
        = (run_simulation T inputs2 steps2).pressure_history
    ∧ (run_simulation T inputs1 steps1).wear_history
        = (run_simulation T inputs2 steps2).wear_history
    ∧ (run_simulation T inputs1 steps1).scenario_summary
        = (run_simulation T inputs2 steps2).scenario_summary
    ∧ (run_simulation T inputs1 steps1).alignment_summary
        = (run_simulation T inputs2 steps2).alignment_summary := by
  subst hi
  subst hs
  exact ⟨rfl, rfl, rfl, rfl, rfl, rfl⟩

/-- Witness for C3 at the §8 sample record. -/
theorem run_simulation_deterministic_witness :
    sampleInputs = sampleInputs ∧ (1 : ℕ) = 1
    ∧ run_simulation T0 sampleInputs 1 = run_simulation T0 sampleInputs 1 :=
  ⟨rfl, rfl,
    (run_simulation_deterministic T0 sampleInputs sampleInputs 1 1 rfl rfl).1⟩

/-! ## `core/scenario_compare.py` -/

/-- The `alignment_change` entry of the outcome deltas. -/
structure AlignmentChange where
  from_regime : String
  to_regime : String
deriving DecidableEq

/-- Model of `outcome_deltas` (wear deltas rounded to 4 decimals for reporting). -/
structure OutcomeDeltas where
  comfort_delta : ℤ
  mean_wear_delta : ℚ
  max_wear_delta : ℚ
  alignment_change : AlignmentChange
deriving DecidableEq

/-- Model of `dominant_factor_shift` (Python builds `list(set - set)`; the sets are
modelled as finite sets, whose difference is order-insensitive like the
arbitrary iteration order of a Python set). -/
structure FactorShift where
  reduced : Finset String
  introduced : Finset String
deriving DecidableEq

structure MechanismAttribution where
  dominant_factor_shift : FactorShift
  notes : List String
deriving DecidableEq

structure TradeoffAnalysis where
  type : String
  summary : String
deriving DecidableEq

structure VerdictInfo where
  classification : String
  rationale : String
deriving DecidableEq

structure ComparisonResult where
  outcome_deltas : OutcomeDeltas
  mechanism_attribution : MechanismAttribution
  tradeoff_analysis : TradeoffAnalysis
  verdict : VerdictInfo
deriving DecidableEq

/-- Model of `result["comfort_history"][-1]["comfort_index"]` (default `0` on an
empty history, which a completed run never has). -/
def final_comfort (res : SimulationResult) : ℤ :=
  ((res.comfort_history.getLast?).map (fun rec => rec.comfort_index)).getD 0

/-- Model of `compare_scenarios(baseline, variant)`. -/
def compare_scenarios (baseline variant : SimulationResult) : ComparisonResult :=
  let comfort_delta := final_comfort variant - final_comfort baseline
  let mean_wear_delta := gridMean variant.final_wear - gridMean baseline.final_wear
  let max_wear_delta := gridMax variant.final_wear - gridMax baseline.final_wear
  let base_alignment := baseline.alignment_summary.alignment_regime
  let var_alignment := variant.alignment_summary.alignment_regime
  let base_factors := baseline.scenario_summary.dominant_factors.toFinset
  let var_factors := variant.scenario_summary.dominant_factors.toFinset
  let notes :=
    (if mean_wear_delta < 0 then
      ["Wear reduction driven by material or pressure persistence effects."] else [])
    ++ (if 0 < comfort_delta then
      ["Comfort improvement linked to reduced dominant pressure penalties."] else [])
    ++ (if base_alignment ≠ var_alignment then
      ["Alignment regime changed from " ++ base_alignment ++ " to "
        ++ var_alignment ++ "."] else [])
  let tpair : String × String :=
    if 0 ≤ comfort_delta ∧ mean_wear_delta ≤ 0 then
      ("no_tradeoff", "Variant improves or preserves comfort while reducing wear.")
    else if comfort_delta < 0 ∧ mean_wear_delta < 0 then
      ("durability_tradeoff", "Variant reduces wear at the cost of comfort.")
    else if 0 < comfort_delta ∧ 0 < mean_wear_delta then
      ("comfort_tradeoff", "Variant improves comfort but increases wear.")
    else ("neutral", "Variant does not materially change comfort or wear.")
  let vpair : String × String :=
    if tpair.1 = "no_tradeoff" then
      ("strictly_better", "Variant dominates baseline on both experience and durability.")
    else if tpair.1 = "durability_tradeoff" ∨ tpair.1 = "comfort_tradeoff" then
      ("tradeoff", tpair.2)
    else if |comfort_delta| < 5 ∧ |mean_wear_delta| < 0.01 then
      ("equivalent", "Variant behaves similarly to baseline within tolerance.")
    else ("worse", "Variant degrades outcomes without compensating benefits.")
  { outcome_deltas :=
      { comfort_delta := comfort_delta
        mean_wear_delta := pyRoundTo 4 mean_wear_delta
        max_wear_delta := pyRoundTo 4 max_wear_delta
        alignment_change := ⟨base_alignment, var_alignment⟩ }
    mechanism_attribution :=
      { dominant_factor_shift := ⟨base_factors \ var_factors, var_factors \ base_factors⟩
        notes := notes }
    tradeoff_analysis := ⟨tpair.1, tpair.2⟩
    verdict := ⟨vpair.1, vpair.2⟩ }

theorem pyRoundTo_zero (n : ℕ) : pyRoundTo n (0 : ℚ) = 0 := by
  norm_num [pyRoundTo, pyRound]

/-- C7: comparing a completed simulation result against itself yields zero
comfort, mean-wear, and max-wear deltas, an alignment change with identical
regimes, empty reduced/introduced factor shifts, and verdict
"strictly_better" (in particular, "equivalent" or "strictly_better"). -/
theorem compare_scenarios_self (res : SimulationResult) :
    (compare_scenarios res res).outcome_deltas.comfort_delta = 0
    ∧ (compare_scenarios res res).outcome_deltas.mean_wear_delta = 0
    ∧ (compare_scenarios res res).outcome_deltas.max_wear_delta = 0
    ∧ (compare_scenarios res res).outcome_deltas.alignment_change.from_regime
        = (compare_scenarios res res).outcome_deltas.alignment_change.to_regime
    ∧ (compare_scenarios res res).mechanism_attribution.dominant_factor_shift.reduced = ∅
    ∧ (compare_scenarios res res).mechanism_attribution.dominant_factor_shift.introduced = ∅
    ∧ ((compare_scenarios res res).verdict.classification = "equivalent"
        ∨ (compare_scenarios res res).verdict.classification = "strictly_better") := by
  refine ⟨?_, ?_, ?_, ?_, ?_, ?_, Or.inr ?_⟩
  · simp [compare_scenarios]
  · simp [compare_scenarios, pyRoundTo_zero]
  · simp [compare_scenarios, pyRoundTo_zero]
  · simp [compare_scenarios]
  · simp [compare_scenarios]
  · simp [compare_scenarios]
  · simp [compare_scenarios]

/-! ## The checked pipeline

`Except`-valued variants of every operation of the run that can fail in the
source environment: Python list indexing (`[-1]`, `[0]`, `[mid]`) raises
`IndexError` on an empty history, and a vanishing divisor at the
source-guarded division sites would make the result undefined (numpy floats
degrade to `inf`/`nan`).  Division by the nonzero literal constants
(`MAX_CELL_PRESSURE`, grid shape products, decimal weights) is kept pure.
C8 states that for validated inputs and `steps ≥ 1` the checked pipeline
returns `ok` with exactly the pure result. -/

/-- Division that fails instead of producing an undefined value. -/
def qdivE (a b : ℚ) : Except String ℚ :=
  if b = 0 then Except.error "ZeroDivisionError" else Except.ok (a / b)

theorem ok_bind {α β : Type} (a : α) (f : α → Except String β) :
    (Except.ok a >>= f) = f a := rfl

theorem pure_eq_ok {α : Type} (a : α) : (pure a : Except String α) = Except.ok a := rfl

/-- Model of `l[n]` with `IndexError`. -/
def getE {α : Type} (l : List α) (n : ℕ) : Except String α :=
  match l.get? n with
  | some a => Except.ok a
  | none => Except.error "IndexError"

/-- Model of `l[-1]` with `IndexError`. -/
def lastE {α : Type} (l : List α) : Except String α :=
  match l.getLast? with
  | some a => Except.ok a
  | none => Except.error "IndexError"

/-- Model of `l[0]` with `IndexError`. -/
def headE {α : Type} (l : List α) : Except String α :=
  match l.head? with
  | some a => Except.ok a
  | none => Except.error "IndexError"

/-- Model of `np.mean(l)`, undefined on an empty list. -/
def listMeanE (l : List ℚ) : Except String ℚ :=
  if l.length = 0 then Except.error "mean of an empty slice is undefined"
  else Except.ok (listMean l)

theorem qdivE_ok {a b : ℚ} (h : b ≠ 0) : qdivE a b = Except.ok (a / b) := by
  simp [qdivE, h]

theorem lastE_ok {α : Type} {l : List α} (h : l ≠ []) (d : α) :
    lastE l = Except.ok (l.getLastD d) := by
  obtain ⟨a, ha⟩ := Option.isSome_iff_exists.mp (List.getLast?_isSome.mpr h)
  simp [lastE, ha, List.getLastD_eq_getLast?]

theorem headE_ok {α : Type} {l : List α} (h : l ≠ []) (d : α) :
    headE l = Except.ok (l.headD d) := by
  obtain ⟨a, ha⟩ := Option.isSome_iff_exists.mp (List.head?_isSome.mpr h)
  simp [headE, ha, List.headD_eq_head?]

theorem getE_ok {α : Type} {l : List α} {n : ℕ} (h : n < l.length) (d : α) :
    getE l n = Except.ok (l.getD n d) := by
  have ha : l[n]? = some l[n] := List.getElem?_eq_getElem h
  simp [getE, List.get?_eq_getElem?, ha, List.getD_eq_getD_get?]

/-- The checked `enforce_force_with_capacity`. -/
def enforce_force_with_capacityE {r c : ℕ} (g : Grid r c) (target_force : ℚ) :
    Except String (Grid r c) :=
  if max_representable_force r c < target_force then
    Except.ok (safe_uniform r c target_force)
  else
    let current_force := gridSum g
    if current_force < EPSILON then Except.ok (safe_uniform r c target_force)
    else do
      let scale ← qdivE target_force current_force
      let clipped := enforce_bounds (fun i j => g i j * scale)
      let clipped_force := gridSum clipped
      if clipped_force < EPSILON then return safe_uniform r c target_force
      else do
        let correction ← qdivE target_force clipped_force
        return fun i j => clipped i j * correction

theorem enforce_force_with_capacityE_ok {r c : ℕ} (g : Grid r c) (t : ℚ) :
    enforce_force_with_capacityE g t
      = Except.ok (enforce_force_with_capacity g t) := by
  by_cases h1 : max_representable_force r c < t
  · simp [enforce_force_with_capacityE, enforce_force_with_capacity, h1]
  · by_cases h2 : gridSum g < EPSILON
    · simp [enforce_force_with_capacityE, enforce_force_with_capacity, h1, h2]
    · have hne : gridSum g ≠ 0 :=
        ne_of_gt (lt_of_lt_of_le eps_pos (not_lt.mp h2))
      by_cases h3 :
          gridSum (enforce_bounds fun i j => g i j * (t / gridSum g)) < EPSILON
      · simp [enforce_force_with_capacityE, enforce_force_with_capacity,
          qdivE, h1, h2, h3, hne, ok_bind, pure_eq_ok]
      · have hne3 : gridSum (enforce_bounds fun i j => g i j * (t / gridSum g)) ≠ 0 :=
          ne_of_gt (lt_of_lt_of_le eps_pos (not_lt.mp h3))
        simp [enforce_force_with_capacityE, enforce_force_with_capacity,
          qdivE, h1, h2, h3, hne, hne3, ok_bind, pure_eq_ok]

/-- The checked `apply_constraints`. -/
def apply_constraintsE {r c : ℕ} (g : Grid r c) (target_total_force : ℚ) :
    Except String (Grid r c) := do
  let g3 ← enforce_force_with_capacityE (enforce_bounds (enforce_finite g))
    target_total_force
  return enforce_bounds g3

theorem apply_constraintsE_ok {r c : ℕ} (g : Grid r c) (t : ℚ) :
    apply_constraintsE g t = Except.ok (apply_constraints g t) := by
  simp [apply_constraintsE, apply_constraints, enforce_force_with_capacityE_ok,
    ok_bind, pure_eq_ok]

theorem mean_p_pos {r c : ℕ} (g : Grid r c) : 0 < mean_p g :=
  lt_of_lt_of_le (by norm_num) (le_max_right (gridMean g) 1e-8)

/-- The checked `compute_comfort` (each division by `mean_p` checked). -/
def compute_comfortE {r c : ℕ} (g : Grid r c) (prev : Option (Grid r c)) :
    Except String ComfortRecord := do
  let zoneRaw ← qdivE
    |meanRowsFrom g (sliceIndex 0.7 r) - meanRowsTo g (sliceIndex 0.3 r)| (mean_p g)
  let asymRaw ← qdivE |meanColsTo g (c / 2) - meanColsFrom g (c / 2)| (mean_p g)
  let temporal ← (match prev with
    | none => Except.ok (0.0 : ℚ)
    | some p => do
        let q ← qdivE (gridMean (fun i j => |g i j - p i j|)) (mean_p g)
        return clip01 q)
  let persistence :=
    if temporal < 0.2 then clip01 (mean_p g / MAX_CELL_PRESSURE) else 0.0
  let total := COMFORT_WEIGHTS "pressure_peak" * peak_penalty g
    + COMFORT_WEIGHTS "high_pressure_area" * area_penalty g
    + COMFORT_WEIGHTS "zone_bias" * clip01 zoneRaw
    + COMFORT_WEIGHTS "asymmetry" * clip01 asymRaw
    + COMFORT_WEIGHTS "temporal_variation" * temporal
    + COMFORT_WEIGHTS "pressure_persistence" * persistence
  Except.ok
    { comfort_index := pyRound (100 * (1 - clip01 total))
      penalties :=
        { pressure_peak := pyRoundTo 3 (peak_penalty g)
          high_pressure_area := pyRoundTo 3 (area_penalty g)
          zone_bias := pyRoundTo 3 (clip01 zoneRaw)
          asymmetry := pyRoundTo 3 (clip01 asymRaw)
          temporal_variation := pyRoundTo 3 temporal
          pressure_persistence := pyRoundTo 3 persistence } }

theorem compute_comfortE_ok {r c : ℕ} (g : Grid r c) (prev : Option (Grid r c)) :
    compute_comfortE g prev = Except.ok (compute_comfort g prev) := by
  have hne : mean_p g ≠ 0 := ne_of_gt (mean_p_pos g)
  cases prev with
  | none =>
      simp [compute_comfortE, compute_comfort, qdivE, hne, total_penalty,
        zone_penalty, asymmetry_penalty, temporal_penalty, persistence_penalty,
        ok_bind, pure_eq_ok]
  | some p =>
      simp [compute_comfortE, compute_comfort, qdivE, hne, total_penalty,
        zone_penalty, asymmetry_penalty, temporal_penalty, persistence_penalty,
        ok_bind, pure_eq_ok]

/-- The checked loop body. -/
def sim_stepE (T : Transcendentals) (params : SimParams)
    (base_grid : Grid GRID_ROWS GRID_COLS) (st : LoopState) (step : ℕ) :
    Except String LoopState := do
  let evolved := evolve_pressure_field T st.pressure_grid base_grid step
    params.activity_variation
  let constrained ← apply_constraintsE evolved (target_force params)
  let comfort ← compute_comfortE constrained st.previous_pressure
  let wear := accumulate_wear T st.wear_grid constrained st.previous_pressure
    params.durability_factor params.activity_wear_rate 1
  Except.ok
    { pressure_grid := constrained
      previous_pressure := some constrained
      wear_grid := wear
      comfort_history := st.comfort_history ++ [comfort]
      pressure_history := st.pressure_history ++ [constrained]
      wear_history := st.wear_history ++ [wear]
      wear_history_visible := st.wear_history_visible
        ++ [fun i j => wear i j * WEAR_VISIBILITY_GAIN] }

theorem sim_stepE_ok (T : Transcendentals) (params : SimParams)
    (base_grid : Grid GRID_ROWS GRID_COLS) (st : LoopState) (step : ℕ) :
    sim_stepE T params base_grid st step
      = Except.ok (sim_step T params base_grid st step) := by
  simp [sim_stepE, sim_step, apply_constraintsE_ok, compute_comfortE_ok,
    ok_bind, pure_eq_ok]

/-- The checked loop. -/
def run_loopE (T : Transcendentals) (params : SimParams)
    (base_grid : Grid GRID_ROWS GRID_COLS) (steps : ℕ) :
    Except String LoopState :=
  (List.range steps).foldlM (sim_stepE T params base_grid) (init_state base_grid)

theorem foldlM_ok {σ α : Type} (f : σ → α → σ) (fE : σ → α → Except String σ)
    (h : ∀ s a, fE s a = Except.ok (f s a)) :
    ∀ (l : List α) (s : σ), l.foldlM fE s = Except.ok (l.foldl f s) := by
  intro l
  induction l with
  | nil => intro s; rfl
  | cons a l ih =>
      intro s
      rw [List.foldlM_cons, h s a, List.foldl_cons]
      exact ih (f s a)

theorem run_loopE_ok (T : Transcendentals) (params : SimParams)
    (base_grid : Grid GRID_ROWS GRID_COLS) (steps : ℕ) :
    run_loopE T params base_grid steps
      = Except.ok (run_loop T params base_grid steps) :=
  foldlM_ok (sim_step T params base_grid) (sim_stepE T params base_grid)
    (fun s a => sim_stepE_ok T params base_grid s a) (List.range steps)
    (init_state base_grid)

/-- The checked `_analyze_trends`. -/
def analyze_trendsE (ch : List ComfortRecord)
    (wh ph : List (Grid GRID_ROWS GRID_COLS)) : Except String TrendAnalysis := do
  let comfort_values := ch.map (fun rec => rec.comfort_index)
  let cLast ← lastE comfort_values
  let cHead ← headE comfort_values
  let wear_means := wh.map gridMean
  let mid := wear_means.length / 2
  let wMid ← getE wear_means mid
  let wHead ← headE wear_means
  let wLast ← lastE wear_means
  let deltas := pressureDeltas ph
  let pressure_delta ← (if ph.length < 2 then Except.ok (0.0 : ℚ)
    else listMeanE (deltas.drop (deltas.length - 5)))
  Except.ok
    { comfort_slope := cLast - cHead
      wear_accelerating := decide ((wMid - wHead) * 1.2 < wLast - wMid)
      pressure_delta := pressure_delta
      dominant_factors := ((sortDescend (penalty_totals ch)).take 2).map Prod.fst }

theorem analyze_trendsE_ok (ch : List ComfortRecord)
    (wh ph : List (Grid GRID_ROWS GRID_COLS))
    (hch : ch ≠ []) (hwh : wh ≠ []) :
    analyze_trendsE ch wh ph = Except.ok (analyze_trends ch wh ph) := by
  have hchm : ch.map (fun rec => rec.comfort_index) ≠ [] := by
    simpa using hch
  have hwhm : wh.map gridMean ≠ [] := by
    simpa using hwh
  have hmid : wh.length / 2 < (List.map gridMean wh).length := by
    rw [List.length_map]
    have h0 : wh.length ≠ 0 := by
      intro h
      exact hwh (List.length_eq_zero.mp h)
    omega
  have hget : getE (List.map gridMean wh) (wh.length / 2)
      = Except.ok ((List.map gridMean wh).getD (wh.length / 2) (0 : ℚ)) :=
    getE_ok hmid (0 : ℚ)
  by_cases hlen : ph.length < 2
  · simp [analyze_trendsE, analyze_trends, lastE_ok hchm (0 : ℤ),
      headE_ok hchm (0 : ℤ), hget, headE_ok hwhm (0 : ℚ),
      lastE_ok hwhm (0 : ℚ), hlen, ok_bind, pure_eq_ok]
  · have hdel : (pressureDeltas ph).length = ph.length - 1 := by
      simp only [pressureDeltas, List.length_zipWith, List.length_tail]
      omega
    have hdrop :
        (pressureDeltas ph).length - ((pressureDeltas ph).length - 5) ≠ 0 := by
      rw [hdel]
      omega
    simp [analyze_trendsE, analyze_trends, lastE_ok hchm (0 : ℤ),
      headE_ok hchm (0 : ℤ), hget, headE_ok hwhm (0 : ℚ),
      lastE_ok hwhm (0 : ℚ), hlen, listMeanE, hdrop, ok_bind, pure_eq_ok]

/-- The checked `_align_comfort_and_wear`. -/
def align_comfort_and_wearE (ch : List ComfortRecord)
    (wh : List (Grid GRID_ROWS GRID_COLS)) : Except String AlignmentSummary := do
  let comfort_values := ch.map (fun rec => rec.comfort_index)
  let wear_means := wh.map gridMean
  let cHead ← headE comfort_values
  let cLast ← lastE comfort_values
  let wHead ← headE wear_means
  let wLast ← lastE wear_means
  let comfort_drop_norm ← qdivE ((cHead - cLast : ℤ) : ℚ) ((max cHead 1 : ℤ) : ℚ)
  let wear_growth_norm ← qdivE (wLast - wHead) (max wLast 1e-6)
  let pair : String × String :=
    if 0.3 < comfort_drop_norm ∧ wear_growth_norm < 0.2 then
      ("transient_discomfort",
       "Comfort decreases without significant material wear. Discomfort is likely due to pressure distribution rather than degradation.")
    else if 0.2 < comfort_drop_norm ∧ 0.3 < wear_growth_norm then
      ("fatigue_driven_degradation",
       "Comfort declines alongside accelerating wear. Sustained pressure is degrading the sole material over time.")
    else if comfort_drop_norm < 0.1 ∧ 0.3 < wear_growth_norm then
      ("hidden_wear_risk",
       "Material wear accumulates despite acceptable comfort levels. Potential long-term degradation without immediate discomfort.")
    else
      ("balanced",
       "Comfort and wear evolve proportionally with no dominant risk pattern.")
  Except.ok
    { alignment_regime := pair.1
      comfort_drop_normalized := pyRoundTo 3 comfort_drop_norm
      wear_growth_normalized := pyRoundTo 3 wear_growth_norm
      interpretation := pair.2 }

theorem align_comfort_and_wearE_ok (ch : List ComfortRecord)
    (wh : List (Grid GRID_ROWS GRID_COLS)) (hch : ch ≠ []) (hwh : wh ≠ []) :
    align_comfort_and_wearE ch wh = Except.ok (align_comfort_and_wear ch wh) := by
  have hchm : ch.map (fun rec => rec.comfort_index) ≠ [] := by
    simpa using hch
  have hwhm : wh.map gridMean ≠ [] := by
    simpa using hwh
  have hden1 : max (((Option.map (fun rec => rec.comfort_index) ch.head?).getD 0 : ℤ) : ℚ) 1
      ≠ 0 :=
    ne_of_gt (lt_of_lt_of_le one_pos (le_max_right _ _))
  have hden2 : max ((Option.map gridMean wh.getLast?).getD 0) (1e-6 : ℚ) ≠ 0 :=
    ne_of_gt (lt_of_lt_of_le (by norm_num) (le_max_right _ _))
  simp [align_comfort_and_wearE, align_comfort_and_wear,
    headE_ok hchm (0 : ℤ), lastE_ok hchm (0 : ℤ), headE_ok hwhm (0 : ℚ),
    lastE_ok hwhm (0 : ℚ), qdivE, hden1, hden2, ok_bind, pure_eq_ok]

/-- The checked `run_simulation`. -/
def run_simulationE (T : Transcendentals) (raw_inputs : RawInputs)
    (steps : ℕ := DEFAULT_SIM_STEPS) : Except String SimulationResult := do
  let params := normalize_inputs raw_inputs
  let base_grid := generate_pressure_field T params
  let final ← run_loopE T params base_grid steps
  let analysis ← analyze_trendsE final.comfort_history final.wear_history
    final.pressure_history
  let alignment ← align_comfort_and_wearE final.comfort_history final.wear_history
  let final_pressure ← lastE final.pressure_history
  let final_wear ← lastE final.wear_history
  Except.ok
    { final_pressure := final_pressure
      final_wear := final_wear
      comfort_history := final.comfort_history
      wear_history := final.wear_history
      wear_history_visible := final.wear_history_visible
      pressure_history := final.pressure_history
      scenario_summary := classify_scenario analysis
      alignment_summary := alignment }

/-- C8: for every validated input record and every `steps ≥ 1`, the checked
pipeline — in which every list access and every guarded division of the
source is modelled as fallible — completes without error and returns exactly
the (total) `run_simulation` result: the simulation loop is total once
inputs pass validation. -/
theorem run_simulation_total (T : Transcendentals) (inputs : RawInputs)
    (steps : ℕ) (hvalid : ValidInputs inputs) (hsteps : 1 ≤ steps) :
    run_simulationE T inputs steps = Except.ok (run_simulation T inputs steps) := by
  have hlen := run_loop_history_lengths T (normalize_inputs inputs)
    (generate_pressure_field T (normalize_inputs inputs)) steps
  have hch : (run_loop T (normalize_inputs inputs)
      (generate_pressure_field T (normalize_inputs inputs)) steps).comfort_history
      ≠ [] := by
    intro h
    rw [h] at hlen
    simp at hlen
    omega
  have hph : (run_loop T (normalize_inputs inputs)
      (generate_pressure_field T (normalize_inputs inputs)) steps).pressure_history
      ≠ [] := by
    intro h
    have := hlen.2.1
    rw [h] at this
    simp at this
    omega
  have hwh : (run_loop T (normalize_inputs inputs)
      (generate_pressure_field T (normalize_inputs inputs)) steps).wear_history
      ≠ [] := by
    intro h
    have := hlen.2.2.1
    rw [h] at this
    simp at this
    omega
  simp [run_simulationE, run_simulation, run_loopE_ok,
    analyze_trendsE_ok _ _ _ hch hwh, align_comfort_and_wearE_ok _ _ hch hwh,
    lastE_ok hph (fun _ _ => (0 : ℚ)), lastE_ok hwh (fun _ _ => (0 : ℚ)),
    ok_bind, pure_eq_ok]

/-- Witness for C8 at the §8 sample record, one step. -/
theorem run_simulation_total_witness :
    ValidInputs sampleInputs ∧ 1 ≤ 1
    ∧ run_simulationE T0 sampleInputs 1
        = Except.ok (run_simulation T0 sampleInputs 1) :=
  ⟨sampleInputs_valid, le_refl 1,
    run_simulation_total T0 sampleInputs 1 sampleInputs_valid (le_refl 1)⟩

end SoleSense
